import Mathlib

/-!
# The 3D viewer of `frontend/public/viewer-v2.js`

A shallow embedding of the viewer's model store, format dispatcher, host bridge
and readiness handshake, with explicit state passing.

* The module-level variables (`currentModel`, `originalMaterials`,
  `lastFileData`, the loader and error overlay elements, the scene) are the
  fields of `ViewerState`.
* Three.js objects are records; object identity is a `Ref`.  A model is given by
  the sequence of nodes that `Object3D.traverse` visits (the node itself, then
  its descendants), which is the only way the viewer looks at a model.
* The format loaders, `TextDecoder` and the JavaScript engine are outside the
  module: their results are the fields of `Env`.
* A function that can throw returns the state reached together with the
  message of the error it threw, if any.
-/

namespace Viewer

/-! ## Data model -/

/-- Identity of a JavaScript object: `parsed n` for an object handed over by a
format loader, `created n` for the `n`-th object the viewer module itself
allocates (`new THREE.MeshPhongMaterial`, `new THREE.Mesh`, `material.clone()`). -/
inductive Ref where
  | parsed (n : Nat)
  | created (n : Nat)
  deriving DecidableEq, Repr

/-- A material object: its identity and its base colour. -/
structure Material where
  id : Ref
  color : Nat
  deriving DecidableEq, Repr

/-- The value of `child.material` when present: one material or an array. -/
inductive MaterialSlot where
  | single (m : Material)
  | array (ms : List Material)
  deriving DecidableEq, Repr

/-- One node of a model: `isMesh` is `child instanceof THREE.Mesh`, `geometry`
and `material` are `none` when the property is missing or falsy. -/
structure Object3D where
  uuid : Ref
  isMesh : Bool
  geometry : Option Nat
  material : Option MaterialSlot
  castShadow : Bool
  receiveShadow : Bool
  deriving DecidableEq, Repr

/-- A model: its root node and the other nodes in traversal order. -/
structure Model where
  root : Object3D
  descendants : List Object3D
  deriving DecidableEq, Repr

/-- The nodes in the order in which `model.traverse` visits them. -/
def Model.nodes (m : Model) : List Object3D := m.root :: m.descendants

/-- A JavaScript value as it can arrive in a field of a posted message. -/
inductive JSValue where
  | undefined
  | null
  | boolean (b : Bool)
  | number (n : Int)
  | nan
  | string (s : String)
  | arrayBuffer (bytes : List Nat)
  deriving DecidableEq, Repr

/-- JavaScript truthiness. -/
def JSValue.truthy : JSValue → Bool
  | .undefined => false
  | .null => false
  | .boolean b => b
  | .number n => n != 0
  | .nan => false
  | .string s => !s.data.isEmpty
  | .arrayBuffer _ => true

/-- The string a value turns into when assigned to `textContent`. -/
def JSValue.toText : JSValue → String
  | .undefined => "undefined"
  | .null => "null"
  | .boolean b => if b then "true" else "false"
  | .number n => toString n
  | .nan => "NaN"
  | .string s => s
  | .arrayBuffer _ => "[object ArrayBuffer]"

/-- What `GLTFLoader.parse` does with the two callbacks: it throws, or calls
the error callback, or calls the load callback with the scene. -/
inductive GLTFOutcome where
  | throws (message : String)
  | onError (message : String)
  | onLoad (scene : Model)

/-- What `FBXLoader.load` does with the two callbacks. -/
inductive FBXOutcome where
  | onError (message : String)
  | onLoad (object : Model)

/-- Everything the module takes from outside: the loaders, the text decoder and
the engine.  `activeCamera` is `none` when the global identifier `activeCamera`
(assigned in `centerModel`, declared nowhere in the module) resolves to a
property of the global object, and `some m` when it does not: the module is an
ES module, hence strict code, and the assignment then throws a `ReferenceError`
with message `m`. -/
structure Env where
  activeCamera : Option String
  typeErrorMessage : String
  stlParse : JSValue → Except String Nat
  utf8 : List Nat → String
  objParse : String → Except String Model
  gltfParse : JSValue → GLTFOutcome
  threeMFParse : JSValue → Except String Model
  fbxLoad : JSValue → FBXOutcome

/-- A loading routine entered, with its arguments. -/
inductive LoaderCall where
  | loadSTL (arrayBuffer : JSValue)
  | loadOBJ (text : String)
  | loadGLTF (arrayBuffer : JSValue) (fileName : String)
  | load3MF (arrayBuffer : JSValue)
  | loadFBX (arrayBuffer : JSValue) (fileName : String)
  deriving DecidableEq, Repr

/-- The loading routines by name. -/
inductive Routine where
  | loadSTL | loadOBJ | loadGLTF | load3MF | loadFBX
  deriving DecidableEq, Repr

/-- The routine a call entered. -/
def LoaderCall.routine : LoaderCall → Routine
  | .loadSTL _ => .loadSTL
  | .loadOBJ _ => .loadOBJ
  | .loadGLTF _ _ => .loadGLTF
  | .load3MF _ => .load3MF
  | .loadFBX _ _ => .loadFBX

/-- The module state.  `originalMaterials` is the `Map` in insertion order;
`scene` lists the uuids of the model roots attached to the scene; `framed` is
the root `centerModel` last positioned the camera for; `nextRef` counts the
objects the module has allocated; `disposedGeometries` and `disposedMaterials`
record the `dispose()` calls; `calls` records the loading routines entered. -/
structure ViewerState where
  currentModel : Option Model
  originalMaterials : List (Ref × MaterialSlot)
  lastFileData : Option (JSValue × JSValue)
  scene : List Ref
  framed : Option Ref
  nextRef : Nat
  disposedGeometries : List Nat
  disposedMaterials : List Ref
  loaderHidden : Bool
  errorOverlayShown : Bool
  errorMessage : String
  calls : List LoaderCall

/-! ## The `Map` of original materials -/

/-- `Map.prototype.has`. -/
def mapHas (m : List (Ref × MaterialSlot)) (key : Ref) : Bool :=
  m.any fun e => e.1 == key

/-- `Map.prototype.get`. -/
def mapGet (m : List (Ref × MaterialSlot)) (key : Ref) : Option MaterialSlot :=
  (m.find? fun e => e.1 == key).map Prod.snd

/-- `Map.prototype.set`: replaces the value of an existing key in place, and
appends a new key. -/
def mapSet : List (Ref × MaterialSlot) → Ref → MaterialSlot → List (Ref × MaterialSlot)
  | [], key, value => [(key, value)]
  | e :: rest, key, value =>
    if e.1 = key then (key, value) :: rest else e :: mapSet rest key value

/-! ## Traversal -/

/-- Runs `callback` on each node in order, threading the state; the callback
returns the node as it has left it. -/
def traverse {σ : Type} (callback : Object3D → σ → Object3D × σ) :
    List Object3D → σ → List Object3D × σ
  | [], st => ([], st)
  | child :: rest, st =>
    let r := callback child st
    let rs := traverse callback rest r.2
    (r.1 :: rs.1, rs.2)

/-- The method `model.traverse(callback)`. -/
def Model.traverse {σ : Type} (callback : Object3D → σ → Object3D × σ)
    (m : Model) (st : σ) : Model × σ :=
  let r := callback m.root st
  let rs := Viewer.traverse callback m.descendants r.2
  ({ root := r.1, descendants := rs.1 }, rs.2)

/-! ## UI helpers -/

/-- The function `showLoader`. -/
def showLoader (s : ViewerState) : ViewerState :=
  { s with loaderHidden := false, errorOverlayShown := false }

/-- The function `hideLoader`. -/
def hideLoader (s : ViewerState) : ViewerState :=
  { s with loaderHidden := true }

/-- The function `showError`. -/
def showError (message : String) (s : ViewerState) : ViewerState :=
  { hideLoader s with errorMessage := message, errorOverlayShown := true }

/-- The function `hideError`. -/
def hideError (s : ViewerState) : ViewerState :=
  { s with errorOverlayShown := false }

/-! ## Model store -/

/-- Calls `dispose()` on the material, or on each material of the array. -/
def disposeSlot (slot : MaterialSlot) (s : ViewerState) : ViewerState :=
  match slot with
  | .single m => { s with disposedMaterials := s.disposedMaterials ++ [m.id] }
  | .array ms => { s with disposedMaterials := s.disposedMaterials ++ ms.map Material.id }

/-- The callback of the traversal in `clearCurrentModel`. -/
def clearCallback (child : Object3D) (s : ViewerState) : Object3D × ViewerState :=
  let s1 := match child.geometry with
    | some g => { s with disposedGeometries := s.disposedGeometries ++ [g] }
    | none => s
  let s2 := match child.material with
    | some slot => disposeSlot slot s1
    | none => s1
  (child, s2)

/-- The function `clearCurrentModel`. -/
def clearCurrentModel (s : ViewerState) : ViewerState :=
  match s.currentModel with
  | none => s
  | some model =>
    let s1 := { s with scene := s.scene.erase model.root.uuid }
    let s2 := (model.traverse clearCallback s1).2
    { s2 with currentModel := none }

/-- The function `centerModel`, as far as the module state goes: the camera
and the controls are set for `object`, then `activeCamera = camera` runs.  The
numbers it gives the camera and the controls are IEEE doubles and are not part
of the state. -/
def centerModel (env : Env) (object : Model) (s : ViewerState) : ViewerState × Option String :=
  ({ s with framed := some object.root.uuid }, env.activeCamera)

/-- The result of `material.clone()` (or of cloning each element of the array),
allocating from `next`. -/
def cloneSlot (next : Nat) : MaterialSlot → MaterialSlot × Nat
  | .single m => (.single { id := .created next, color := m.color }, next + 1)
  | .array ms =>
    (.array (ms.enum.map fun e => { id := .created (next + e.1), color := e.2.color }),
      next + ms.length)

/-- The callback of the traversal in `saveOriginalMaterials`. -/
def saveCallback (child : Object3D) (s : ViewerState) : Object3D × ViewerState :=
  if child.isMesh then
    match child.material with
    | some slot =>
      let c := cloneSlot s.nextRef slot
      (child, { s with originalMaterials := mapSet s.originalMaterials child.uuid c.1,
                       nextRef := c.2 })
    | none => (child, s)
  else (child, s)

/-- The function `saveOriginalMaterials`. -/
def saveOriginalMaterials (model : Model) (s : ViewerState) : ViewerState :=
  (model.traverse saveCallback { s with originalMaterials := [] }).2

/-- The callback of the traversal in `applyMaterial`. -/
def applyMaterialCallback (newMaterial : Material) (child : Object3D) (s : ViewerState) :
    Object3D × ViewerState :=
  if child.isMesh then
    let s1 := match child.material with
      | some slot => if !mapHas s.originalMaterials child.uuid then disposeSlot slot s else s
      | none => s
    ({ child with material := some (.single newMaterial) }, s1)
  else (child, s)

/-- The function `applyMaterial`. -/
def applyMaterial (hexColor : Nat) (s : ViewerState) : ViewerState :=
  match s.currentModel with
  | none => s
  | some model =>
    let newMaterial : Material := { id := .created s.nextRef, color := hexColor }
    let r := model.traverse (applyMaterialCallback newMaterial) { s with nextRef := s.nextRef + 1 }
    { r.2 with currentModel := some r.1 }

/-- The callback of the traversal in `restoreOriginalMaterials`. -/
def restoreCallback (child : Object3D) (s : ViewerState) : Object3D × ViewerState :=
  if child.isMesh && mapHas s.originalMaterials child.uuid then
    ({ child with material := mapGet s.originalMaterials child.uuid }, s)
  else (child, s)

/-- The function `restoreOriginalMaterials`. -/
def restoreOriginalMaterials (s : ViewerState) : ViewerState :=
  match s.currentModel with
  | none => s
  | some model =>
    if s.originalMaterials.length = 0 then s
    else
      let r := model.traverse restoreCallback s
      { r.2 with currentModel := some r.1 }

/-- The array `colors` of `applyMulticolor`. -/
def colors : List Nat :=
  [0x4285f4, 0x34a853, 0xfbbc05, 0xea4335, 0x9c27b0, 0xff6d00, 0x00bcd4, 0xe91e63]

/-- The callback of the traversal in `applyMulticolor`; the second component of
the state is `colorIndex`. -/
def applyMulticolorCallback (child : Object3D) (st : ViewerState × Nat) :
    Object3D × (ViewerState × Nat) :=
  if child.isMesh then
    let color := colors.getD (st.2 % colors.length) 0
    let newMaterial : Material := { id := .created st.1.nextRef, color := color }
    let s0 := { st.1 with nextRef := st.1.nextRef + 1 }
    let s1 := match child.material with
      | some slot => if !mapHas s0.originalMaterials child.uuid then disposeSlot slot s0 else s0
      | none => s0
    ({ child with material := some (.single newMaterial) }, (s1, st.2 + 1))
  else (child, st)

/-- The function `applyMulticolor`. -/
def applyMulticolor (s : ViewerState) : ViewerState :=
  match s.currentModel with
  | none => s
  | some model =>
    let r := model.traverse applyMulticolorCallback (s, 0)
    { r.2.1 with currentModel := some r.1 }

/-! ## Loading routines -/

/-- Where a loading routine stops waiting for a callback of its loader, the
callback that will fire. -/
inductive Pending where
  | gltfOnLoad (scene : Model)
  | gltfOnError (message : String)
  | fbxOnLoad (object : Model)
  | fbxOnError (message : String)

/-- Records that a loading routine has been entered. -/
def enter (call : LoaderCall) (s : ViewerState) : ViewerState :=
  { s with calls := s.calls ++ [call] }

/-- The statement `scene.add(object)`. -/
def sceneAdd (object : Model) (s : ViewerState) : ViewerState :=
  { s with scene := s.scene ++ [object.root.uuid] }

/-- The traversal callback that sets `castShadow` and `receiveShadow` on meshes. -/
def shadowCallback (child : Object3D) (s : ViewerState) : Object3D × ViewerState :=
  if child.isMesh then ({ child with castShadow := true, receiveShadow := true }, s)
  else (child, s)

/-- The traversal callback of `loadOBJ`: a new green material for each mesh. -/
def objCallback (child : Object3D) (s : ViewerState) : Object3D × ViewerState :=
  if child.isMesh then
    ({ child with material := some (.single { id := .created s.nextRef, color := 0x34a853 }),
                  castShadow := true, receiveShadow := true },
      { s with nextRef := s.nextRef + 1 })
  else (child, s)

/-- The common tail of the synchronous routines `loadSTL` and `loadOBJ`:
`clearCurrentModel(); currentModel = object; scene.add(object);
centerModel(object); saveOriginalMaterials(object)`. -/
def install (env : Env) (object : Model) (s : ViewerState) : ViewerState × Option String :=
  let s1 := clearCurrentModel s
  let s2 := sceneAdd object { s1 with currentModel := some object }
  match centerModel env object s2 with
  | (s3, some message) => (s3, some message)
  | (s3, none) => (saveOriginalMaterials object s3, none)

/-- The function `loadSTL`. -/
def loadSTL (env : Env) (arrayBuffer : JSValue) (s : ViewerState) : ViewerState × Option String :=
  let s0 := enter (.loadSTL arrayBuffer) s
  match env.stlParse arrayBuffer with
  | .error message => (s0, some message)
  | .ok geometry =>
    let defaultMaterial : Material := { id := .created s0.nextRef, color := 0x4285f4 }
    let mesh : Object3D :=
      { uuid := .created (s0.nextRef + 1), isMesh := true, geometry := some geometry,
        material := some (.single defaultMaterial), castShadow := true, receiveShadow := true }
    install env { root := mesh, descendants := [] } { s0 with nextRef := s0.nextRef + 2 }

/-- The function `loadOBJ`. -/
def loadOBJ (env : Env) (text : String) (s : ViewerState) : ViewerState × Option String :=
  let s0 := enter (.loadOBJ text) s
  match env.objParse text with
  | .error message => (s0, some message)
  | .ok parsed =>
    let r := parsed.traverse objCallback s0
    install env r.1 r.2

/-- The load callback of `loadGLTF`.  An error thrown inside it is caught by
the loader, which passes it to the error callback. -/
def gltfOnLoad (env : Env) (scene : Model) (s : ViewerState) : ViewerState :=
  let s1 := clearCurrentModel s
  let r := scene.traverse shadowCallback s1
  let s2 := sceneAdd r.1 { r.2 with currentModel := some r.1 }
  match centerModel env r.1 s2 with
  | (s3, some message) =>
    hideLoader (showError ("Erreur de chargement GLTF/GLB: " ++ message
      ++ ". Vérifiez le format d'exportation.") s3)
  | (s3, none) => hideLoader (saveOriginalMaterials r.1 s3)

/-- The error callback of `loadGLTF`. -/
def gltfOnError (message : String) (s : ViewerState) : ViewerState :=
  hideLoader (showError ("Erreur de chargement GLTF/GLB: " ++ message
    ++ ". Vérifiez le format d'exportation.") s)

/-- The function `loadGLTF`, up to the point where the loader has taken the
callbacks. -/
def loadGLTF (env : Env) (arrayBuffer : JSValue) (fileName : String) (s : ViewerState) :
    ViewerState × Option Pending :=
  let s0 := enter (.loadGLTF arrayBuffer fileName) s
  match env.gltfParse arrayBuffer with
  | .throws message => (hideLoader (showError ("Erreur de parsing GLTF/GLB: " ++ message) s0), none)
  | .onError message => (s0, some (.gltfOnError message))
  | .onLoad scene => (s0, some (.gltfOnLoad scene))

/-- The function `load3MF`. -/
def load3MF (env : Env) (arrayBuffer : JSValue) (s : ViewerState) : ViewerState :=
  let s0 := enter (.load3MF arrayBuffer) s
  match env.threeMFParse arrayBuffer with
  | .error message => showError ("Erreur de chargement 3MF: " ++ message) s0
  | .ok object =>
    let s1 := clearCurrentModel s0
    let s2 := sceneAdd object { s1 with currentModel := some object }
    match centerModel env object s2 with
    | (s3, some message) => showError ("Erreur de chargement 3MF: " ++ message) s3
    | (s3, none) =>
      let r := object.traverse shadowCallback s3
      saveOriginalMaterials r.1 { r.2 with currentModel := some r.1 }

/-- The load callback of `loadFBX`.  An error thrown inside it is caught by
the loader, which passes it to the error callback. -/
def fbxOnLoad (env : Env) (object : Model) (s : ViewerState) : ViewerState :=
  let s1 := clearCurrentModel s
  let s2 := sceneAdd object { s1 with currentModel := some object }
  match centerModel env object s2 with
  | (s3, some message) => hideLoader (showError ("Erreur de chargement FBX: " ++ message ++ ".") s3)
  | (s3, none) =>
    let r := object.traverse shadowCallback s3
    hideLoader (saveOriginalMaterials r.1 { r.2 with currentModel := some r.1 })

/-- The error callback of `loadFBX`. -/
def fbxOnError (message : String) (s : ViewerState) : ViewerState :=
  hideLoader (showError ("Erreur de chargement FBX: " ++ message ++ ".") s)

/-- The function `loadFBX`, up to the point where the loader has taken the
callbacks. -/
def loadFBX (env : Env) (arrayBuffer : JSValue) (fileName : String) (s : ViewerState) :
    ViewerState × Option Pending :=
  let s0 := enter (.loadFBX arrayBuffer fileName) s
  match env.fbxLoad arrayBuffer with
  | .onError message => (s0, some (.fbxOnError message))
  | .onLoad object => (s0, some (.fbxOnLoad object))

/-- The callback fires, in whatever state the viewer is by then. -/
def fire (env : Env) : Pending → ViewerState → ViewerState
  | .gltfOnLoad scene, s => gltfOnLoad env scene s
  | .gltfOnError message, s => gltfOnError message s
  | .fbxOnLoad object, s => fbxOnLoad env object s
  | .fbxOnError message, s => fbxOnError message s

/-! ## Format dispatcher -/

/-- `String.prototype.toLowerCase`, on the letters `A` to `Z`; no character
outside them lowercases to a letter of one of the six suffixes. -/
def toLowerCase (s : String) : String := ⟨s.data.map Char.toLower⟩

/-- `String.prototype.endsWith`. -/
def endsWith (s suffix : String) : Bool := suffix.data.isSuffixOf s.data

/-- `new TextDecoder('utf-8').decode(arrayBuffer)`: a `TypeError` on a value
that is not a buffer. -/
def decode (env : Env) : JSValue → Except String String
  | .arrayBuffer bytes => .ok (env.utf8 bytes)
  | .undefined => .ok ""
  | _ => .error env.typeErrorMessage

/-- The message of the error thrown for an unsupported suffix. -/
def unsupportedMessage (fileName : String) : String :=
  "Format non supporté: " ++ fileName
    ++ ". Formats supportés: .stl, .obj, .gltf, .glb, .3mf, .fbx"

/-- The end of the `try` block and the `catch` of `loadModelFromData`, after
a synchronous routine. -/
def finish (r : ViewerState × Option String) : ViewerState × Option Pending :=
  match r with
  | (s, some message) => (showError message s, none)
  | (s, none) => (hideLoader s, none)

/-- The function `loadModelFromData`, with the callback it leaves pending. -/
def loadModelFromData (env : Env) (fileName arrayBuffer : JSValue) (s : ViewerState) :
    ViewerState × Option Pending :=
  match arrayBuffer with
  | .undefined => (showError env.typeErrorMessage s, none)
  | .null => (showError env.typeErrorMessage s, none)
  | _ =>
    let s0 := { showLoader s with lastFileData := some (fileName, arrayBuffer) }
    match fileName with
    | .string name =>
      let fileNameLower := toLowerCase name
      if endsWith fileNameLower ".stl" then
        finish (loadSTL env arrayBuffer s0)
      else if endsWith fileNameLower ".obj" then
        match decode env arrayBuffer with
        | .error message => (showError message s0, none)
        | .ok text => finish (loadOBJ env text s0)
      else if endsWith fileNameLower ".gltf" || endsWith fileNameLower ".glb" then
        loadGLTF env arrayBuffer name s0
      else if endsWith fileNameLower ".3mf" then
        (hideLoader (load3MF env arrayBuffer s0), none)
      else if endsWith fileNameLower ".fbx" then
        loadFBX env arrayBuffer name s0
      else
        (showError (unsupportedMessage name) s0, none)
    | _ => (showError env.typeErrorMessage s0, none)

/-! ## Host bridge -/

/-- The `data` of a message event; a field that is absent is `undefined`. -/
structure MessageData where
  type : JSValue
  fileName : JSValue
  fileData : JSValue
  error : JSValue
  status : JSValue
  progress : JSValue

/-- The `message` listener.  A `conversion_status` message only rewrites the
label and the bar of the loading indicator, which are not part of the state. -/
def onMessage (env : Env) (data : MessageData) (s : ViewerState) : ViewerState × Option Pending :=
  if data.type = .string "load_model" then
    if data.fileName.truthy && data.fileData.truthy then
      loadModelFromData env data.fileName data.fileData s
    else
      (showError "Données du fichier invalides" s, none)
  else if data.type = .string "load_error" then
    (showError (if data.error.truthy then data.error.toText else "Erreur inconnue") s, none)
  else
    (s, none)

/-- The click listener of the retry button. -/
def onRetryClick (env : Env) (s : ViewerState) : ViewerState × Option Pending :=
  match s.lastFileData with
  | some (fileName, arrayBuffer) => loadModelFromData env fileName arrayBuffer (hideError s)
  | none => (s, none)

/-! ## Readiness handshake -/

/-- The handshake: `sent` counts the `viewer_ready` messages posted, `attempts`
is the variable of that name, `intervalActive` tells whether `retryInterval`
is still set. -/
structure Handshake where
  sent : Nat
  attempts : Nat
  intervalActive : Bool
  deriving DecidableEq, Repr

/-- The startup block; `inFrame` is `window.parent !== window`. -/
def startHandshake (inFrame : Bool) : Handshake :=
  if inFrame then { sent := 1, attempts := 0, intervalActive := true }
  else { sent := 0, attempts := 0, intervalActive := false }

/-- One period of 100 ms elapses: the interval callback runs if the interval
is still set. -/
def tick (h : Handshake) : Handshake :=
  if h.intervalActive then
    { sent := h.sent + 1, attempts := h.attempts + 1,
      intervalActive := !decide (h.attempts + 1 ≥ 30) }
  else h

/-- The handshake of a viewer inside a frame after `n` periods of 100 ms. -/
def handshakeAfter (n : Nat) : Handshake := tick^[n] (startHandshake true)

/-! ## Vocabulary of the statements -/

/-- The text `sub` occurs in the text `s`. -/
def occursIn (sub s : String) : Prop := sub.data <:+: s.data

/-- The keys of the `Map` of original materials. -/
def keys (m : List (Ref × MaterialSlot)) : List Ref := m.map Prod.fst

/-- The mesh parts of a model that have a material, in traversal order. -/
def meshPartsWithMaterial (m : Model) : List Object3D :=
  m.nodes.filter fun child => child.isMesh && child.material.isSome

/-- The mesh parts of a model, in traversal order. -/
def meshParts (m : Model) : List Object3D :=
  m.nodes.filter fun child => child.isMesh

/-- The identities of the materials in a slot. -/
def MaterialSlot.ids : MaterialSlot → List Ref
  | .single m => [m.id]
  | .array ms => ms.map Material.id

/-- The colours of the materials in a slot. -/
def MaterialSlot.colorList : MaterialSlot → List Nat
  | .single m => [m.color]
  | .array ms => ms.map Material.color

/-- The identities of the materials a node holds. -/
def Object3D.materialIds (child : Object3D) : List Ref :=
  match child.material with
  | some slot => slot.ids
  | none => []

/-- A failed load as the user sees it: the current model and the snapshot are
those of `before`, the loading indicator is hidden, the error overlay is shown
and its text contains `m`. -/
def ErrorShown (m : String) (before after : ViewerState) : Prop :=
  after.currentModel = before.currentModel ∧ after.originalMaterials = before.originalMaterials ∧
  after.loaderHidden = true ∧ after.errorOverlayShown = true ∧ occursIn m after.errorMessage

/-- The outcome `r` of `loadModelFromData` in state `s` surfaces the message
`m`: the call itself leaves the current model and the snapshot alone, and the
error is shown either by the call or, whatever the state `t` is by then, by
the callback it left pending. -/
def RejectionShown (env : Env) (m : String) (s : ViewerState) (r : ViewerState × Option Pending) :
    Prop :=
  r.1.currentModel = s.currentModel ∧ r.1.originalMaterials = s.originalMaterials ∧
  match r.2 with
  | none => r.1.loaderHidden = true ∧ r.1.errorOverlayShown = true ∧ occursIn m r.1.errorMessage
  | some p => ∀ t, ErrorShown m t (fire env p t)


/-- The material `applyMulticolor` gives to mesh part number `i` (from 0) when
the module has allocated `base` objects before: a new object with colour
`colors[i % 8]`. -/
def multicolorMaterial (base i : Nat) : Material :=
  { id := .created (base + i), color := colors.getD (i % 8) 0 }

/-- Every geometry of the nodes of `first` and every material those nodes hold
has had `dispose()` called on it by the time of `after`. -/
def Released (first : Model) (after : ViewerState) : Prop :=
  ∀ c ∈ first.nodes,
    (∀ g, c.geometry = some g → g ∈ after.disposedGeometries) ∧
    (∀ r ∈ c.materialIds, r ∈ after.disposedMaterials)

/-- A completed load as the user sees it: there is a current model, attached to
the scene and framed by `centerModel`; the keys of the snapshot are exactly the
uuids of its mesh parts that have a material; the loading indicator is hidden
and no error overlay is shown. -/
def Loaded (s : ViewerState) : Prop :=
  ∃ model, s.currentModel = some model ∧ model.root.uuid ∈ s.scene ∧
    s.framed = some model.root.uuid ∧
    (∀ u, u ∈ keys s.originalMaterials ↔ ∃ c ∈ meshPartsWithMaterial model, c.uuid = u) ∧
    s.loaderHidden = true ∧ s.errorOverlayShown = false

/-! ## Example inputs -/

/-- The state of the module once its startup code has run. -/
def initialState : ViewerState :=
  { currentModel := none, originalMaterials := [], lastFileData := none, scene := [],
    framed := none, nextRef := 0, disposedGeometries := [], disposedMaterials := [],
    loaderHidden := true, errorOverlayShown := false, errorMessage := "", calls := [] }

/-- A page in which no script defines a global `activeCamera`, with an STL
loader that accepts the bytes and yields geometry `7`, and other loaders that
reject theirs with the message `Unexpected token`. -/
def sampleEnv : Env :=
  { activeCamera := some "activeCamera is not defined"
    typeErrorMessage := "TypeError"
    stlParse := fun _ => .ok 7
    utf8 := fun _ => ""
    objParse := fun _ => .error "Unexpected token"
    gltfParse := fun _ => .onError "Unexpected token"
    threeMFParse := fun _ => .error "Unexpected token"
    fbxLoad := fun _ => .onError "Unexpected token" }

/-- A page like `sampleEnv` in which some script has defined a global
`activeCamera`, so that `centerModel` runs to its end. -/
def boundEnv : Env := { sampleEnv with activeCamera := none }

/-- A `load_model` message without `fileData`. -/
def messageWithoutData : MessageData :=
  { type := .string "load_model", fileName := .string "box.stl", fileData := .undefined,
    error := .undefined, status := .undefined, progress := .undefined }

/-- A parsed model: a group with two meshes, each with its own material. -/
def sampleModel : Model :=
  { root := { uuid := .parsed 0, isMesh := false, geometry := none, material := none,
              castShadow := false, receiveShadow := false }
    descendants :=
      [ { uuid := .parsed 1, isMesh := true, geometry := some 1,
          material := some (.single { id := .parsed 10, color := 0xaa0000 }),
          castShadow := true, receiveShadow := true },
        { uuid := .parsed 2, isMesh := true, geometry := some 2,
          material := some (.single { id := .parsed 11, color := 0x00aa00 }),
          castShadow := true, receiveShadow := true } ] }

/-- The state in which `sampleModel` is the current model, attached and framed,
before its materials are snapshotted. -/
def attachedState : ViewerState :=
  { initialState with currentModel := some sampleModel, scene := [.parsed 0],
                      framed := some (.parsed 0) }

/-- The state in which `sampleModel` is loaded and `saveOriginalMaterials` has
taken the snapshot. -/
def loadedState : ViewerState := saveOriginalMaterials sampleModel attachedState

/-- The state `loadedState` after a first recolor, `applyMaterial(0xff0000)`. -/
def recoloredState : ViewerState := applyMaterial 0xff0000 loadedState

/-- The model `sampleModel` as the first recolor leaves it: both meshes hold
the one new material. -/
def recoloredModel : Model :=
  { root := sampleModel.root
    descendants := sampleModel.descendants.map fun c =>
      { c with material := some (.single { id := .created 2, color := 0xff0000 }) } }

/-! ## Basic facts -/

theorem occursIn_mid (a m b : String) : occursIn m (a ++ m ++ b) := by
  refine ⟨a.data, b.data, ?_⟩
  simp [String.data_append]

theorem occursIn_right (a m : String) : occursIn m (a ++ m) := by
  refine ⟨a.data, [], ?_⟩
  simp [String.data_append]

theorem occursIn_refl (m : String) : occursIn m m := List.infix_refl _

theorem traverse_proj {σ α : Type} (f : σ → α) (cb : Object3D → σ → Object3D × σ)
    (h : ∀ c st, f (cb c st).2 = f st) :
    ∀ (nodes : List Object3D) (st : σ), f (traverse cb nodes st).2 = f st
  | [], _ => rfl
  | c :: rest, st => by
    simp only [traverse]
    rw [traverse_proj f cb h rest, h]

theorem modelTraverse_proj {σ α : Type} (f : σ → α) (cb : Object3D → σ → Object3D × σ)
    (h : ∀ c st, f (cb c st).2 = f st) (m : Model) (st : σ) :
    f (m.traverse cb st).2 = f st := by
  simp only [Model.traverse]
  rw [Viewer.traverse_proj f cb h, h]

theorem modelTraverse_nodes {σ : Type} (cb : Object3D → σ → Object3D × σ) (m : Model) (st : σ) :
    (m.traverse cb st).1.nodes = (Viewer.traverse cb m.nodes st).1 := rfl

theorem modelTraverse_snd {σ : Type} (cb : Object3D → σ → Object3D × σ) (m : Model) (st : σ) :
    (m.traverse cb st).2 = (Viewer.traverse cb m.nodes st).2 := rfl

/-! ## What each operation leaves alone -/

theorem clearCallback_originalMaterials (c : Object3D) (st : ViewerState) :
    (clearCallback c st).2.originalMaterials = st.originalMaterials := by
  simp only [clearCallback]
  cases c.geometry <;> cases c.material <;> try rfl
  all_goals (rename_i slot; cases slot <;> rfl)

@[simp] theorem clearCurrentModel_originalMaterials (s : ViewerState) :
    (clearCurrentModel s).originalMaterials = s.originalMaterials := by
  unfold clearCurrentModel
  cases s.currentModel with
  | none => rfl
  | some model =>
    exact modelTraverse_proj ViewerState.originalMaterials clearCallback clearCallback_originalMaterials model _

theorem clearCallback_errorOverlayShown (c : Object3D) (st : ViewerState) :
    (clearCallback c st).2.errorOverlayShown = st.errorOverlayShown := by
  simp only [clearCallback]
  cases c.geometry <;> cases c.material <;> try rfl
  all_goals (rename_i slot; cases slot <;> rfl)

@[simp] theorem clearCurrentModel_errorOverlayShown (s : ViewerState) :
    (clearCurrentModel s).errorOverlayShown = s.errorOverlayShown := by
  unfold clearCurrentModel
  cases s.currentModel with
  | none => rfl
  | some model =>
    exact modelTraverse_proj ViewerState.errorOverlayShown clearCallback clearCallback_errorOverlayShown model _

theorem clearCallback_calls (c : Object3D) (st : ViewerState) :
    (clearCallback c st).2.calls = st.calls := by
  simp only [clearCallback]
  cases c.geometry <;> cases c.material <;> try rfl
  all_goals (rename_i slot; cases slot <;> rfl)

@[simp] theorem clearCurrentModel_calls (s : ViewerState) :
    (clearCurrentModel s).calls = s.calls := by
  unfold clearCurrentModel
  cases s.currentModel with
  | none => rfl
  | some model =>
    exact modelTraverse_proj ViewerState.calls clearCallback clearCallback_calls model _

theorem saveCallback_currentModel (c : Object3D) (st : ViewerState) :
    (saveCallback c st).2.currentModel = st.currentModel := by
  simp only [saveCallback]
  cases c.isMesh <;> cases c.material <;> rfl

@[simp] theorem saveOriginalMaterials_currentModel (model : Model) (s : ViewerState) :
    (saveOriginalMaterials model s).currentModel = s.currentModel := by
  unfold saveOriginalMaterials
  exact modelTraverse_proj ViewerState.currentModel saveCallback saveCallback_currentModel model _

theorem saveCallback_scene (c : Object3D) (st : ViewerState) :
    (saveCallback c st).2.scene = st.scene := by
  simp only [saveCallback]
  cases c.isMesh <;> cases c.material <;> rfl

@[simp] theorem saveOriginalMaterials_scene (model : Model) (s : ViewerState) :
    (saveOriginalMaterials model s).scene = s.scene := by
  unfold saveOriginalMaterials
  exact modelTraverse_proj ViewerState.scene saveCallback saveCallback_scene model _

theorem saveCallback_framed (c : Object3D) (st : ViewerState) :
    (saveCallback c st).2.framed = st.framed := by
  simp only [saveCallback]
  cases c.isMesh <;> cases c.material <;> rfl

@[simp] theorem saveOriginalMaterials_framed (model : Model) (s : ViewerState) :
    (saveOriginalMaterials model s).framed = s.framed := by
  unfold saveOriginalMaterials
  exact modelTraverse_proj ViewerState.framed saveCallback saveCallback_framed model _

theorem saveCallback_disposedGeometries (c : Object3D) (st : ViewerState) :
    (saveCallback c st).2.disposedGeometries = st.disposedGeometries := by
  simp only [saveCallback]
  cases c.isMesh <;> cases c.material <;> rfl

@[simp] theorem saveOriginalMaterials_disposedGeometries (model : Model) (s : ViewerState) :
    (saveOriginalMaterials model s).disposedGeometries = s.disposedGeometries := by
  unfold saveOriginalMaterials
  exact modelTraverse_proj ViewerState.disposedGeometries saveCallback saveCallback_disposedGeometries model _

theorem saveCallback_disposedMaterials (c : Object3D) (st : ViewerState) :
    (saveCallback c st).2.disposedMaterials = st.disposedMaterials := by
  simp only [saveCallback]
  cases c.isMesh <;> cases c.material <;> rfl

@[simp] theorem saveOriginalMaterials_disposedMaterials (model : Model) (s : ViewerState) :
    (saveOriginalMaterials model s).disposedMaterials = s.disposedMaterials := by
  unfold saveOriginalMaterials
  exact modelTraverse_proj ViewerState.disposedMaterials saveCallback saveCallback_disposedMaterials model _

theorem saveCallback_errorOverlayShown (c : Object3D) (st : ViewerState) :
    (saveCallback c st).2.errorOverlayShown = st.errorOverlayShown := by
  simp only [saveCallback]
  cases c.isMesh <;> cases c.material <;> rfl

@[simp] theorem saveOriginalMaterials_errorOverlayShown (model : Model) (s : ViewerState) :
    (saveOriginalMaterials model s).errorOverlayShown = s.errorOverlayShown := by
  unfold saveOriginalMaterials
  exact modelTraverse_proj ViewerState.errorOverlayShown saveCallback saveCallback_errorOverlayShown model _

theorem saveCallback_calls (c : Object3D) (st : ViewerState) :
    (saveCallback c st).2.calls = st.calls := by
  simp only [saveCallback]
  cases c.isMesh <;> cases c.material <;> rfl

@[simp] theorem saveOriginalMaterials_calls (model : Model) (s : ViewerState) :
    (saveOriginalMaterials model s).calls = s.calls := by
  unfold saveOriginalMaterials
  exact modelTraverse_proj ViewerState.calls saveCallback saveCallback_calls model _

@[simp] theorem clearCurrentModel_currentModel (s : ViewerState) :
    (clearCurrentModel s).currentModel = none := by
  unfold clearCurrentModel
  cases h : s.currentModel with
  | none => simpa using h
  | some model => rfl

theorem shadowCallback_snd (c : Object3D) (st : ViewerState) : (shadowCallback c st).2 = st := by
  simp only [shadowCallback]
  cases c.isMesh <;> rfl

@[simp] theorem traverse_shadow_snd (model : Model) (s : ViewerState) :
    (model.traverse shadowCallback s).2 = s :=
  modelTraverse_proj id shadowCallback shadowCallback_snd model s

theorem objCallback_currentModel (c : Object3D) (st : ViewerState) :
    (objCallback c st).2.currentModel = st.currentModel := by
  simp only [objCallback]
  cases c.isMesh <;> rfl

@[simp] theorem traverse_obj_currentModel (model : Model) (s : ViewerState) :
    (model.traverse objCallback s).2.currentModel = s.currentModel :=
  modelTraverse_proj ViewerState.currentModel objCallback objCallback_currentModel model s

theorem objCallback_errorOverlayShown (c : Object3D) (st : ViewerState) :
    (objCallback c st).2.errorOverlayShown = st.errorOverlayShown := by
  simp only [objCallback]
  cases c.isMesh <;> rfl

@[simp] theorem traverse_obj_errorOverlayShown (model : Model) (s : ViewerState) :
    (model.traverse objCallback s).2.errorOverlayShown = s.errorOverlayShown :=
  modelTraverse_proj ViewerState.errorOverlayShown objCallback objCallback_errorOverlayShown model s

theorem objCallback_calls (c : Object3D) (st : ViewerState) :
    (objCallback c st).2.calls = st.calls := by
  simp only [objCallback]
  cases c.isMesh <;> rfl

@[simp] theorem traverse_obj_calls (model : Model) (s : ViewerState) :
    (model.traverse objCallback s).2.calls = s.calls :=
  modelTraverse_proj ViewerState.calls objCallback objCallback_calls model s

/-! ## The trace of loading routines -/

theorem install_calls (env : Env) (object : Model) (s : ViewerState) :
    (install env object s).1.calls = s.calls := by
  unfold install centerModel sceneAdd
  cases env.activeCamera <;> simp

theorem finish_calls (r : ViewerState × Option String) : (finish r).1.calls = r.1.calls := by
  obtain ⟨s, _ | m⟩ := r <;> rfl

theorem loadSTL_calls (env : Env) (arrayBuffer : JSValue) (s : ViewerState) :
    (loadSTL env arrayBuffer s).1.calls = s.calls ++ [.loadSTL arrayBuffer] := by
  unfold loadSTL
  cases env.stlParse arrayBuffer with
  | error m => rfl
  | ok g => simp [install_calls, enter]

theorem loadOBJ_calls (env : Env) (text : String) (s : ViewerState) :
    (loadOBJ env text s).1.calls = s.calls ++ [.loadOBJ text] := by
  unfold loadOBJ
  cases env.objParse text with
  | error m => rfl
  | ok parsed => simp [install_calls, enter]

theorem loadGLTF_calls (env : Env) (arrayBuffer : JSValue) (fileName : String) (s : ViewerState) :
    (loadGLTF env arrayBuffer fileName s).1.calls = s.calls ++ [.loadGLTF arrayBuffer fileName] := by
  unfold loadGLTF
  cases env.gltfParse arrayBuffer <;> rfl

theorem load3MF_calls (env : Env) (arrayBuffer : JSValue) (s : ViewerState) :
    (load3MF env arrayBuffer s).calls = s.calls ++ [.load3MF arrayBuffer] := by
  unfold load3MF
  cases env.threeMFParse arrayBuffer with
  | error m => rfl
  | ok object =>
    simp only [centerModel]
    cases env.activeCamera <;> simp [showError, hideLoader, sceneAdd, enter]

theorem loadFBX_calls (env : Env) (arrayBuffer : JSValue) (fileName : String) (s : ViewerState) :
    (loadFBX env arrayBuffer fileName s).1.calls = s.calls ++ [.loadFBX arrayBuffer fileName] := by
  unfold loadFBX
  cases env.fbxLoad arrayBuffer <;> rfl

theorem fire_calls (env : Env) (p : Pending) (t : ViewerState) : (fire env p t).calls = t.calls := by
  cases p with
  | gltfOnLoad scene =>
    simp only [fire, gltfOnLoad, centerModel]
    cases env.activeCamera <;> simp [showError, hideLoader, sceneAdd]
  | gltfOnError m => rfl
  | fbxOnLoad object =>
    simp only [fire, fbxOnLoad, centerModel]
    cases env.activeCamera <;> simp [showError, hideLoader, sceneAdd]
  | fbxOnError m => rfl

/-! ## Loading a file (C1) -/

/-- C1, as the code has it: with an STL file whose bytes the loader parses, in a
page where the identifier `activeCamera` is unbound, `loadModelFromData` makes
the new mesh the current model, but the error thrown at the end of
`centerModel` skips `saveOriginalMaterials`: the snapshot is the one from
before the call, and the error overlay is shown with the message of that error. -/
theorem loadModelFromData_stl_skips_snapshot (env : Env) (s : ViewerState) (name : String)
    (bytes : List Nat) (geometry : Nat) (m : String)
    (hname : endsWith (toLowerCase name) ".stl" = true)
    (hparse : env.stlParse (.arrayBuffer bytes) = .ok geometry)
    (hcam : env.activeCamera = some m) :
    let r := loadModelFromData env (.string name) (.arrayBuffer bytes) s
    r.2 = none ∧
    r.1.currentModel = some
      { root := { uuid := .created (s.nextRef + 1), isMesh := true, geometry := some geometry,
                  material := some (.single { id := .created s.nextRef, color := 0x4285f4 }),
                  castShadow := true, receiveShadow := true },
        descendants := [] } ∧
    r.1.originalMaterials = s.originalMaterials ∧
    r.1.loaderHidden = true ∧
    r.1.errorOverlayShown = true ∧
    r.1.errorMessage = m := by
  simp [loadModelFromData, hname, loadSTL, hparse, install, centerModel, hcam, finish, showError,
    hideLoader, showLoader, sceneAdd, enter]

theorem loadModelFromData_stl_skips_snapshot_witness :
    (loadModelFromData sampleEnv (.string "box.stl") (.arrayBuffer [0]) initialState).1.originalMaterials
        = [] ∧
      (loadModelFromData sampleEnv (.string "box.stl") (.arrayBuffer [0])
        initialState).1.errorOverlayShown = true ∧
      (loadModelFromData sampleEnv (.string "box.stl") (.arrayBuffer [0])
        initialState).1.errorMessage = "activeCamera is not defined" :=
  have h := loadModelFromData_stl_skips_snapshot sampleEnv initialState "box.stl" [0] 7
    "activeCamera is not defined" (by decide) rfl rfl
  ⟨h.2.2.1, h.2.2.2.2.1, h.2.2.2.2.2⟩

/-! ## Dispatch by suffix (C2, C3) -/

theorem endsWith_other (l a b : String) (ha : endsWith l a = true)
    (hab : a.data.isSuffixOf b.data = false) (hba : b.data.isSuffixOf a.data = false) :
    endsWith l b = false := by
  cases hb : endsWith l b with
  | false => rfl
  | true =>
    simp only [endsWith, List.isSuffixOf_iff_suffix] at ha hb
    rcases List.suffix_or_suffix_of_suffix ha hb with h | h
    · rw [← List.isSuffixOf_iff_suffix] at h
      rw [h] at hab; cases hab
    · rw [← List.isSuffixOf_iff_suffix] at h
      rw [h] at hba; cases hba

theorem loadModelFromData_calls_routine (env : Env) (s : ViewerState) (name other : String)
    (bytes : List Nat) (h : toLowerCase other = toLowerCase name) :
    (loadModelFromData env (.string other) (.arrayBuffer bytes) s).1.calls.map LoaderCall.routine
      = (loadModelFromData env (.string name) (.arrayBuffer bytes) s).1.calls.map
          LoaderCall.routine := by
  simp only [loadModelFromData, h, decode]
  split_ifs <;>
    simp [finish_calls, loadSTL_calls, loadOBJ_calls, loadGLTF_calls, load3MF_calls,
      loadFBX_calls, hideLoader, showError, showLoader, LoaderCall.routine]

/-- C2: `loadModelFromData` enters the routine given by the suffix of the
lowercased file name, with the buffer (the decoded text for `.obj`), and enters
no other routine, neither then nor when a pending callback fires; names with
the same lowercased form enter the same routine. -/
theorem loadModelFromData_selects_by_suffix (env : Env) (s : ViewerState) (name : String)
    (bytes : List Nat) :
    let buffer := JSValue.arrayBuffer bytes
    let lower := toLowerCase name
    let r := loadModelFromData env (.string name) buffer s
    (endsWith lower ".stl" = true → r.1.calls = s.calls ++ [.loadSTL buffer]) ∧
    (endsWith lower ".obj" = true → r.1.calls = s.calls ++ [.loadOBJ (env.utf8 bytes)]) ∧
    (endsWith lower ".gltf" = true ∨ endsWith lower ".glb" = true →
      r.1.calls = s.calls ++ [.loadGLTF buffer name]) ∧
    (endsWith lower ".3mf" = true → r.1.calls = s.calls ++ [.load3MF buffer]) ∧
    (endsWith lower ".fbx" = true → r.1.calls = s.calls ++ [.loadFBX buffer name]) ∧
    (∀ p t, r.2 = some p → (fire env p t).calls = t.calls) ∧
    (∀ other, toLowerCase other = toLowerCase name →
      (loadModelFromData env (.string other) buffer s).1.calls.map LoaderCall.routine
        = r.1.calls.map LoaderCall.routine) := by
  refine ⟨?_, ?_, ?_, ?_, ?_, ?_, ?_⟩
  · intro h
    simp [loadModelFromData, h, finish_calls, loadSTL_calls, showLoader]
  · intro h
    have h1 := endsWith_other _ _ ".stl" h (by decide) (by decide)
    simp [loadModelFromData, h, h1, decode, finish_calls, loadOBJ_calls, showLoader]
  · intro h
    have h1 : endsWith (toLowerCase name) ".stl" = false := by
      rcases h with h | h <;> exact endsWith_other _ _ ".stl" h (by decide) (by decide)
    have h2 : endsWith (toLowerCase name) ".obj" = false := by
      rcases h with h | h <;> exact endsWith_other _ _ ".obj" h (by decide) (by decide)
    have h3 : (endsWith (toLowerCase name) ".gltf" || endsWith (toLowerCase name) ".glb") = true := by
      rcases h with h | h <;> simp [h]
    simp only [Bool.or_eq_true] at h3
    simp [loadModelFromData, h1, h2, h3, loadGLTF_calls, showLoader]
  · intro h
    have h1 := endsWith_other _ _ ".stl" h (by decide) (by decide)
    have h2 := endsWith_other _ _ ".obj" h (by decide) (by decide)
    have h3 := endsWith_other _ _ ".gltf" h (by decide) (by decide)
    have h4 := endsWith_other _ _ ".glb" h (by decide) (by decide)
    simp [loadModelFromData, h, h1, h2, h3, h4, load3MF_calls, showLoader, hideLoader]
  · intro h
    have h1 := endsWith_other _ _ ".stl" h (by decide) (by decide)
    have h2 := endsWith_other _ _ ".obj" h (by decide) (by decide)
    have h3 := endsWith_other _ _ ".gltf" h (by decide) (by decide)
    have h4 := endsWith_other _ _ ".glb" h (by decide) (by decide)
    have h5 := endsWith_other _ _ ".3mf" h (by decide) (by decide)
    simp [loadModelFromData, h, h1, h2, h3, h4, h5, loadFBX_calls, showLoader]
  · intro p t _
    exact fire_calls env p t
  · intro other h
    exact loadModelFromData_calls_routine env s name other bytes h

theorem loadModelFromData_selects_by_suffix_witness :
    (loadModelFromData sampleEnv (.string "Part.GLB") (.arrayBuffer [0]) initialState).1.calls
      = [.loadGLTF (.arrayBuffer [0]) "Part.GLB"] :=
  (loadModelFromData_selects_by_suffix sampleEnv initialState "Part.GLB" [0]).2.2.1
    (Or.inr (by decide))

theorem occursIn_append_right (x a b : String) (h : occursIn x b) : occursIn x (a ++ b) := by
  unfold occursIn at *
  rw [String.data_append]
  exact h.trans (List.suffix_append _ _).isInfix

/-- C3: for a file name whose lowercased form has none of the six suffixes,
`loadModelFromData` enters no loading routine, leaves the current model, the
snapshot and the scene as they were, hides the loading indicator and shows an
error whose message contains the file name and each of the six suffixes. -/
theorem loadModelFromData_unsupported (env : Env) (s : ViewerState) (name : String)
    (bytes : List Nat)
    (hstl : endsWith (toLowerCase name) ".stl" = false)
    (hobj : endsWith (toLowerCase name) ".obj" = false)
    (hgltf : endsWith (toLowerCase name) ".gltf" = false)
    (hglb : endsWith (toLowerCase name) ".glb" = false)
    (h3mf : endsWith (toLowerCase name) ".3mf" = false)
    (hfbx : endsWith (toLowerCase name) ".fbx" = false) :
    let r := loadModelFromData env (.string name) (.arrayBuffer bytes) s
    r.2 = none ∧ r.1.calls = s.calls ∧
    r.1.currentModel = s.currentModel ∧ r.1.originalMaterials = s.originalMaterials ∧
    r.1.scene = s.scene ∧
    r.1.loaderHidden = true ∧ r.1.errorOverlayShown = true ∧
    occursIn name r.1.errorMessage ∧
    ∀ suffix ∈ [".stl", ".obj", ".gltf", ".glb", ".3mf", ".fbx"],
      occursIn suffix r.1.errorMessage := by
  have hr : loadModelFromData env (.string name) (.arrayBuffer bytes) s
      = (showError (unsupportedMessage name)
          { showLoader s with lastFileData := some (.string name, .arrayBuffer bytes) }, none) := by
    simp [loadModelFromData, hstl, hobj, hgltf, hglb, h3mf, hfbx]
  rw [hr]
  refine ⟨rfl, rfl, rfl, rfl, rfl, rfl, rfl, ?_, ?_⟩
  · exact occursIn_mid _ _ _
  · intro suffix hmem
    simp only [showError, unsupportedMessage]
    apply occursIn_append_right
    simp only [List.mem_cons, List.mem_singleton, List.not_mem_nil, or_false] at hmem
    rcases hmem with h | h | h | h | h | h <;> subst h <;> (unfold occursIn; decide)

theorem loadModelFromData_unsupported_witness :
    (loadModelFromData sampleEnv (.string "model.xyz") (.arrayBuffer [0]) initialState).1.calls = [] ∧
      occursIn "model.xyz"
        (loadModelFromData sampleEnv (.string "model.xyz") (.arrayBuffer [0])
          initialState).1.errorMessage :=
  have h := loadModelFromData_unsupported sampleEnv initialState "model.xyz" [0]
    (by decide) (by decide) (by decide) (by decide) (by decide) (by decide)
  ⟨h.2.1, h.2.2.2.2.2.2.2.1⟩

/-! ## Rejected bytes (C7) -/

theorem gltfOnError_shown (m : String) (t : ViewerState) : ErrorShown m t (gltfOnError m t) :=
  ⟨rfl, rfl, rfl, rfl, occursIn_mid _ _ _⟩

theorem fbxOnError_shown (m : String) (t : ViewerState) : ErrorShown m t (fbxOnError m t) :=
  ⟨rfl, rfl, rfl, rfl, occursIn_mid _ _ _⟩

/-- C7: for each supported suffix, when the loader of that format rejects the
bytes with message `m` (its parse throws, or the GLTF/GLB or FBX error callback
fires), the current model and the snapshot stay as they were, the loading
indicator is hidden and the error overlay is shown with a text containing `m`. -/
theorem loadModelFromData_rejected (env : Env) (s : ViewerState) (name : String)
    (bytes : List Nat) (m : String) :
    let buffer := JSValue.arrayBuffer bytes
    let lower := toLowerCase name
    let r := loadModelFromData env (.string name) buffer s
    (endsWith lower ".stl" = true → env.stlParse buffer = .error m → RejectionShown env m s r) ∧
    (endsWith lower ".obj" = true → env.objParse (env.utf8 bytes) = .error m →
      RejectionShown env m s r) ∧
    (endsWith lower ".gltf" = true ∨ endsWith lower ".glb" = true →
      env.gltfParse buffer = .throws m ∨ env.gltfParse buffer = .onError m →
      RejectionShown env m s r) ∧
    (endsWith lower ".3mf" = true → env.threeMFParse buffer = .error m →
      RejectionShown env m s r) ∧
    (endsWith lower ".fbx" = true → env.fbxLoad buffer = .onError m →
      RejectionShown env m s r) := by
  refine ⟨?_, ?_, ?_, ?_, ?_⟩
  · intro h hp
    simp only [loadModelFromData, h, if_true, loadSTL, hp, finish]
    exact ⟨rfl, rfl, rfl, rfl, occursIn_refl _⟩
  · intro h hp
    have h1 := endsWith_other _ _ ".stl" h (by decide) (by decide)
    simp only [loadModelFromData, h, h1, if_true, decode, loadOBJ, hp, finish]
    exact ⟨rfl, rfl, rfl, rfl, occursIn_refl _⟩
  · intro h hp
    have h1 : endsWith (toLowerCase name) ".stl" = false := by
      rcases h with h | h <;> exact endsWith_other _ _ ".stl" h (by decide) (by decide)
    have h2 : endsWith (toLowerCase name) ".obj" = false := by
      rcases h with h | h <;> exact endsWith_other _ _ ".obj" h (by decide) (by decide)
    have h3 : (endsWith (toLowerCase name) ".gltf" || endsWith (toLowerCase name) ".glb") = true := by
      rcases h with h | h <;> simp [h]
    rcases hp with hp | hp
    · simp only [loadModelFromData, h1, h2, h3, if_true, loadGLTF, hp]
      exact ⟨rfl, rfl, rfl, rfl, occursIn_right _ _⟩
    · simp only [loadModelFromData, h1, h2, h3, if_true, loadGLTF, hp]
      exact ⟨rfl, rfl, fun t => gltfOnError_shown m t⟩
  · intro h hp
    have h1 := endsWith_other _ _ ".stl" h (by decide) (by decide)
    have h2 := endsWith_other _ _ ".obj" h (by decide) (by decide)
    have h3 := endsWith_other _ _ ".gltf" h (by decide) (by decide)
    have h4 := endsWith_other _ _ ".glb" h (by decide) (by decide)
    simp only [loadModelFromData, h, h1, h2, h3, h4, if_true, load3MF, hp]
    exact ⟨rfl, rfl, rfl, rfl, occursIn_right _ _⟩
  · intro h hp
    have h1 := endsWith_other _ _ ".stl" h (by decide) (by decide)
    have h2 := endsWith_other _ _ ".obj" h (by decide) (by decide)
    have h3 := endsWith_other _ _ ".gltf" h (by decide) (by decide)
    have h4 := endsWith_other _ _ ".glb" h (by decide) (by decide)
    have h5 := endsWith_other _ _ ".3mf" h (by decide) (by decide)
    simp only [loadModelFromData, h, h1, h2, h3, h4, h5, if_true, loadFBX, hp]
    exact ⟨rfl, rfl, fun t => fbxOnError_shown m t⟩

theorem loadModelFromData_rejected_witness :
    RejectionShown sampleEnv "Unexpected token" initialState
      (loadModelFromData sampleEnv (.string "scene.glb") (.arrayBuffer [0]) initialState) :=
  (loadModelFromData_rejected sampleEnv initialState "scene.glb" [0] "Unexpected token").2.2.1
    (Or.inr (by decide)) (Or.inr rfl)

/-! ## Messages without a payload (C10) -/

/-- C10: on a `load_model` message whose `fileName` or `fileData` is falsy, the
listener only calls `showError` with the text `Données du fichier invalides`:
no loading routine is entered, and the current model, the snapshot and the
remembered retry payload are unchanged. -/
theorem onMessage_load_model_missing (env : Env) (s : ViewerState) (data : MessageData)
    (htype : data.type = .string "load_model")
    (hmissing : data.fileName.truthy = false ∨ data.fileData.truthy = false) :
    let r := onMessage env data s
    r = (showError "Données du fichier invalides" s, none) ∧
    r.1.calls = s.calls ∧ r.1.currentModel = s.currentModel ∧
    r.1.originalMaterials = s.originalMaterials ∧ r.1.lastFileData = s.lastFileData ∧
    r.1.loaderHidden = true ∧ r.1.errorOverlayShown = true ∧
    r.1.errorMessage = "Données du fichier invalides" := by
  have hr : onMessage env data s = (showError "Données du fichier invalides" s, none) := by
    rcases hmissing with h | h <;> simp [onMessage, htype, h]
  rw [hr]
  exact ⟨rfl, rfl, rfl, rfl, rfl, rfl, rfl, rfl⟩

theorem onMessage_load_model_missing_witness :
    (onMessage sampleEnv messageWithoutData initialState).1.errorMessage
        = "Données du fichier invalides" ∧
      (onMessage sampleEnv messageWithoutData initialState).1.lastFileData = none :=
  have h := onMessage_load_model_missing sampleEnv initialState messageWithoutData rfl (Or.inr rfl)
  ⟨h.2.2.2.2.2.2.2, h.2.2.2.2.1⟩

/-! ## Readiness handshake (C9) -/

theorem tick_iterate (n : Nat) :
    tick^[n] (startHandshake true)
      = { sent := min n 30 + 1, attempts := min n 30, intervalActive := decide (n < 30) } := by
  induction n with
  | zero => rfl
  | succ k ih =>
    rw [Function.iterate_succ_apply', ih]
    by_cases hk : k < 30
    · have h1 : min k 30 = k := Nat.min_eq_left (by omega)
      have h2 : min (k + 1) 30 = k + 1 := Nat.min_eq_left (by omega)
      simp only [tick, hk, h1, h2, decide_True, if_true]
      congr 1
      by_cases hk2 : k + 1 < 30
      · simp [hk2]; omega
      · simp [hk2]; omega
    · have h1 : min k 30 = 30 := Nat.min_eq_right (by omega)
      have h2 : min (k + 1) 30 = 30 := Nat.min_eq_right (by omega)
      have h3 : ¬ k + 1 < 30 := by omega
      simp [tick, hk, h1, h2, h3]

/-- C9: inside a frame, after `n` periods of the retry timer the counter
`attempts` is `min n 30` and `min n 30 + 1` messages have been sent (one at
startup, one on each of the first 30 ticks); the interval is still set exactly
while `n < 30`; from the 30th tick on exactly 31 messages have been sent and a
further period changes nothing. -/
theorem handshake_bounded (n : Nat) :
    (handshakeAfter n).attempts = min n 30 ∧ (handshakeAfter n).sent = min n 30 + 1 ∧
    (handshakeAfter n).attempts ≤ 30 ∧ (handshakeAfter n).sent ≤ 31 ∧
    ((handshakeAfter n).intervalActive = true ↔ n < 30) ∧
    ((handshakeAfter n).intervalActive = false → (handshakeAfter n).sent = 31) ∧
    (30 ≤ n → (handshakeAfter n).intervalActive = false ∧ (handshakeAfter n).sent = 31 ∧
      tick (handshakeAfter n) = handshakeAfter n) := by
  unfold handshakeAfter
  rw [tick_iterate]
  refine ⟨rfl, rfl, Nat.min_le_right _ _, by simp, by simp, ?_, ?_⟩
  · intro h
    simp only [decide_eq_false_iff_not, not_lt] at h
    simp [Nat.min_eq_right h]
  · intro h
    have h3 : ¬ n < 30 := by omega
    simp [Nat.min_eq_right h, h3, tick]

theorem handshake_bounded_witness :
    (handshakeAfter 31).intervalActive = false ∧ (handshakeAfter 31).sent = 31 :=
  have h := (handshake_bounded 31).2.2.2.2.2.2 (by decide)
  ⟨h.1, h.2.1⟩

/-! ## Recolouring and restoring (C4, C5) -/

theorem mapGet_mapSet (om : List (Ref × MaterialSlot)) (k k' : Ref) (v : MaterialSlot) :
    mapGet (mapSet om k v) k' = if k' = k then some v else mapGet om k' := by
  induction om with
  | nil =>
    by_cases h : k' = k
    · simp [mapSet, mapGet, h]
    · have h' : ¬ k = k' := fun e => h e.symm
      simp [mapSet, mapGet, h, h']
  | cons e rest ih =>
    simp only [mapSet]
    by_cases he : e.1 = k
    · by_cases h : k' = k
      · simp [mapGet, he, h]
      · have h' : ¬ k = k' := fun e => h e.symm
        simp [mapGet, he, h, h', List.find?_cons]
    · simp only [he, if_false]
      by_cases h1 : e.1 = k'
      · have h : ¬ k' = k := fun e' => he (h1.trans e')
        simp [mapGet, List.find?_cons, h1, h]
      · have ih' := ih
        simp only [mapGet] at ih' ⊢
        have hb : (e.1 == k') = false := by simp [h1]
        simp only [List.find?_cons, hb]
        exact ih'

theorem mapHas_iff (om : List (Ref × MaterialSlot)) (k : Ref) :
    mapHas om k = (mapGet om k).isSome := by
  induction om with
  | nil => rfl
  | cons e rest ih =>
    simp only [mapHas, mapGet] at ih ⊢
    by_cases h : e.1 = k
    · simp [List.find?_cons, h]
    · simp [List.find?_cons, h, ih]

theorem cloneSlot_spec (n : Nat) (slot : MaterialSlot) :
    (cloneSlot n slot).1.colorList = slot.colorList ∧
      (cloneSlot n slot).1.ids.length = slot.ids.length ∧
      (∀ r ∈ (cloneSlot n slot).1.ids, ∃ k, r = .created k ∧ n ≤ k) ∧
      n ≤ (cloneSlot n slot).2 := by
  cases slot with
  | single m => simp [cloneSlot, MaterialSlot.colorList, MaterialSlot.ids]
  | array ms =>
    refine ⟨?_, ?_, ?_, ?_⟩
    · simp only [cloneSlot, MaterialSlot.colorList, List.map_map]
      have : ((fun m : Material => m.color) ∘ fun e : Nat × Material =>
          ({ id := .created (n + e.1), color := e.2.color } : Material))
          = (fun m : Material => m.color) ∘ Prod.snd := rfl
      rw [this, ← List.map_map, List.enum_map_snd]
    · simp [cloneSlot, MaterialSlot.ids]
    · intro r hr
      simp only [cloneSlot, MaterialSlot.ids, List.map_map, List.mem_map] at hr
      obtain ⟨e, -, rfl⟩ := hr
      exact ⟨n + e.1, rfl, Nat.le_add_right _ _⟩
    · simp [cloneSlot]

theorem saveCallback_nextRef_le (c : Object3D) (st : ViewerState) :
    st.nextRef ≤ (saveCallback c st).2.nextRef := by
  simp only [saveCallback]
  cases c.isMesh with
  | false => exact Nat.le_refl _
  | true =>
    cases c.material with
    | none => exact Nat.le_refl _
    | some slot => exact (cloneSlot_spec st.nextRef slot).2.2.2

theorem saveCallback_get_other (c : Object3D) (st : ViewerState) (k : Ref) (h : c.uuid ≠ k) :
    mapGet (saveCallback c st).2.originalMaterials k = mapGet st.originalMaterials k := by
  simp only [saveCallback]
  cases c.isMesh with
  | false => rfl
  | true =>
    cases c.material with
    | none => rfl
    | some slot =>
      simp only [if_true]
      rw [mapGet_mapSet, if_neg (fun e => h e.symm)]

theorem traverse_save_get_other :
    ∀ (nodes : List Object3D) (st : ViewerState) (k : Ref), k ∉ nodes.map Object3D.uuid →
      mapGet (traverse saveCallback nodes st).2.originalMaterials k = mapGet st.originalMaterials k
  | [], _, _, _ => rfl
  | c :: rest, st, k, hk => by
    simp only [List.map_cons, List.mem_cons, not_or] at hk
    rw [traverse]
    simp only
    rw [traverse_save_get_other rest _ k hk.2, saveCallback_get_other c st k (fun e => hk.1 e.symm)]

theorem traverse_save_nextRef_le :
    ∀ (nodes : List Object3D) (st : ViewerState), st.nextRef ≤ (traverse saveCallback nodes st).2.nextRef
  | [], _ => Nat.le_refl _
  | c :: rest, st => by
    rw [traverse]
    exact Nat.le_trans (saveCallback_nextRef_le c st) (traverse_save_nextRef_le rest _)

theorem traverse_save_get :
    ∀ (nodes : List Object3D) (st : ViewerState), (nodes.map Object3D.uuid).Nodup →
      ∀ c ∈ nodes, c.isMesh = true → ∀ slot, c.material = some slot →
        ∃ n, st.nextRef ≤ n ∧
          mapGet (traverse saveCallback nodes st).2.originalMaterials c.uuid
            = some (cloneSlot n slot).1
  | [], _, _, c, hc, _, _, _ => by cases hc
  | d :: rest, st, hnd, c, hc, hmesh, slot, hslot => by
    simp only [List.map_cons, List.nodup_cons] at hnd
    rw [traverse]
    simp only
    rcases List.mem_cons.1 hc with rfl | hc'
    · refine ⟨st.nextRef, Nat.le_refl _, ?_⟩
      rw [traverse_save_get_other rest _ _ hnd.1]
      simp only [saveCallback, hmesh, hslot, if_true]
      rw [mapGet_mapSet, if_pos rfl]
    · obtain ⟨n, hn, hget⟩ := traverse_save_get rest (saveCallback d st).2 hnd.2 c hc' hmesh slot hslot
      exact ⟨n, Nat.le_trans (saveCallback_nextRef_le d st) hn, hget⟩
theorem applyMaterialCallback_fst (nm : Material) (c : Object3D) (st : ViewerState) :
    (applyMaterialCallback nm c st).1
      = if c.isMesh then { c with material := some (.single nm) } else c := by
  simp only [applyMaterialCallback]
  split_ifs <;> rfl

theorem applyMaterialCallback_originalMaterials (nm : Material) (c : Object3D) (st : ViewerState) :
    (applyMaterialCallback nm c st).2.originalMaterials = st.originalMaterials := by
  simp only [applyMaterialCallback]
  cases c.isMesh with
  | false => rfl
  | true =>
    cases c.material with
    | none => rfl
    | some slot =>
      simp only [if_true]
      split_ifs
      · cases slot <;> rfl
      · rfl

theorem traverse_applyMaterial_fst (nm : Material) :
    ∀ (nodes : List Object3D) (st : ViewerState),
      (traverse (applyMaterialCallback nm) nodes st).1
        = nodes.map fun c => if c.isMesh then { c with material := some (.single nm) } else c
  | [], _ => rfl
  | c :: rest, st => by
    rw [traverse]
    simp only [List.map_cons, applyMaterialCallback_fst, traverse_applyMaterial_fst nm rest]

theorem traverse_restore :
    ∀ (nodes : List Object3D) (st : ViewerState),
      traverse restoreCallback nodes st
        = (nodes.map fun c =>
            if c.isMesh && mapHas st.originalMaterials c.uuid then
              { c with material := mapGet st.originalMaterials c.uuid }
            else c, st)
  | [], _ => rfl
  | c :: rest, st => by
    have h : restoreCallback c st
        = (if c.isMesh && mapHas st.originalMaterials c.uuid then
            { c with material := mapGet st.originalMaterials c.uuid } else c, st) := by
      simp only [restoreCallback]
      split_ifs <;> rfl
    rw [traverse, h]
    simp only [traverse_restore rest st, List.map_cons]

theorem applyMaterial_restore_nodes (s : ViewerState) (model : Model) (color : Nat)
    (hmodel : s.currentModel = some model) :
    ∃ model', (restoreOriginalMaterials (applyMaterial color s)).currentModel = some model' ∧
      (restoreOriginalMaterials (applyMaterial color s)).originalMaterials = s.originalMaterials ∧
      model'.nodes = model.nodes.map fun c =>
        if c.isMesh then
          match mapGet s.originalMaterials c.uuid with
          | some copy => { c with material := some copy }
          | none => { c with material := some (.single { id := .created s.nextRef, color := color }) }
        else c := by
  have hom : (applyMaterial color s).originalMaterials = s.originalMaterials := by
    simp only [applyMaterial, hmodel]
    exact modelTraverse_proj ViewerState.originalMaterials _
      (applyMaterialCallback_originalMaterials _) model _
  have hcur : (applyMaterial color s).currentModel
      = some (model.traverse (applyMaterialCallback { id := .created s.nextRef, color := color })
          { s with nextRef := s.nextRef + 1 }).1 := by
    simp [applyMaterial, hmodel]
  simp only [restoreOriginalMaterials, hcur, hom]
  by_cases hlen : s.originalMaterials.length = 0
  · have hnil : s.originalMaterials = [] := List.length_eq_zero.1 hlen
    simp only [hlen, if_true, hcur]
    refine ⟨_, rfl, hom, ?_⟩
    rw [modelTraverse_nodes, traverse_applyMaterial_fst]
    apply List.map_congr_left
    intro c _
    simp [hnil, mapGet]
  · simp only [hlen, if_false]
    refine ⟨_, rfl, ?_, ?_⟩
    · rw [modelTraverse_snd, traverse_restore]
      exact hom
    · rw [modelTraverse_nodes, traverse_restore, modelTraverse_nodes, traverse_applyMaterial_fst,
        List.map_map]
      apply List.map_congr_left
      intro c _
      simp only [Function.comp, hom]
      cases hmesh : c.isMesh with
      | false => simp [hmesh]
      | true =>
        cases hget : mapGet s.originalMaterials c.uuid with
        | none => simp [hmesh, mapHas_iff, hget]
        | some copy => simp [hmesh, mapHas_iff, hget]

/-- C4, amended: after `saveOriginalMaterials` has taken the snapshot of a
loaded model whose nodes have distinct uuids, `applyMaterial(color)` followed
by `restoreOriginalMaterials()` leaves every mesh part that held a material at
load time holding the entry the snapshot has for its uuid, which is a copy of
that material (the same colours, as many materials) made of objects created by
`saveOriginalMaterials`; a mesh part without a snapshot entry holds the uniform
material, and the other nodes are unchanged. -/
theorem applyMaterial_restore_gives_snapshot_copies (s : ViewerState) (model : Model)
    (color : Nat) (hmodel : s.currentModel = some model)
    (hnodup : (model.nodes.map Object3D.uuid).Nodup) :
    ∃ model',
      (restoreOriginalMaterials (applyMaterial color (saveOriginalMaterials model s))).currentModel
        = some model' ∧
      (model'.nodes = model.nodes.map fun c =>
        if c.isMesh then
          match mapGet (saveOriginalMaterials model s).originalMaterials c.uuid with
          | some copy => { c with material := some copy }
          | none => { c with material := some (.single
              { id := .created (saveOriginalMaterials model s).nextRef, color := color }) }
        else c) ∧
      ∀ c ∈ model.nodes, c.isMesh = true → ∀ slot, c.material = some slot →
        ∃ copy, mapGet (saveOriginalMaterials model s).originalMaterials c.uuid = some copy ∧
          copy.colorList = slot.colorList ∧ copy.ids.length = slot.ids.length ∧
          ∀ r ∈ copy.ids, ∃ k, r = .created k ∧ s.nextRef ≤ k := by
  have hcur : (saveOriginalMaterials model s).currentModel = some model := by
    rw [saveOriginalMaterials_currentModel]; exact hmodel
  obtain ⟨model', h1, -, h3⟩ := applyMaterial_restore_nodes (saveOriginalMaterials model s) model
    color hcur
  refine ⟨model', h1, h3, ?_⟩
  intro c hc hmesh slot hslot
  obtain ⟨n, hn, hget⟩ := traverse_save_get model.nodes { s with originalMaterials := [] } hnodup
    c hc hmesh slot hslot
  refine ⟨(cloneSlot n slot).1, ?_, (cloneSlot_spec n slot).1, (cloneSlot_spec n slot).2.1, ?_⟩
  · simpa [saveOriginalMaterials, modelTraverse_snd] using hget
  · intro r hr
    obtain ⟨k, hk, hle⟩ := (cloneSlot_spec n slot).2.2.1 r hr
    exact ⟨k, hk, Nat.le_trans hn hle⟩

theorem applyMaterial_restore_gives_snapshot_copies_witness :
    ∃ model',
      (restoreOriginalMaterials (applyMaterial 0xff0000
        (saveOriginalMaterials sampleModel attachedState))).currentModel = some model' ∧
      model'.nodes.length = 3 :=
  have h := applyMaterial_restore_gives_snapshot_copies attachedState sampleModel 0xff0000 rfl
    (by decide)
  h.elim fun m hm => ⟨m, hm.1, by rw [hm.2.1]; rfl⟩

/-- C4, as stated, fails: with `sampleModel` loaded and snapshotted,
`applyMaterial(0xff0000)` then `restoreOriginalMaterials()` leaves the two
meshes holding the objects `created 0` and `created 1` (the clones kept in the
snapshot), while at load time they held `parsed 10` and `parsed 11`. -/
theorem restore_gives_copy_not_load_time_reference :
    loadedState.currentModel = some sampleModel ∧
      ((restoreOriginalMaterials (applyMaterial 0xff0000 loadedState)).currentModel.map fun m =>
        (meshParts m).map Object3D.materialIds)
        ≠ some ((meshParts sampleModel).map Object3D.materialIds) ∧
      ((restoreOriginalMaterials (applyMaterial 0xff0000 loadedState)).currentModel.map fun m =>
        (meshParts m).map Object3D.materialIds) = some [[.created 0], [.created 1]] ∧
      (meshParts sampleModel).map Object3D.materialIds = [[.parsed 10], [.parsed 11]] := by
  decide

theorem traverse_applyMaterial_keeps_disposed (nm : Material) :
    ∀ (nodes : List Object3D) (st : ViewerState),
      (∀ c ∈ nodes, c.isMesh = true → mapHas st.originalMaterials c.uuid = true) →
      (traverse (applyMaterialCallback nm) nodes st).2.disposedMaterials = st.disposedMaterials
  | [], _, _ => rfl
  | c :: rest, st, h => by
    have hc : (applyMaterialCallback nm c st).2 = st := by
      simp only [applyMaterialCallback]
      cases hmesh : c.isMesh with
      | false => rfl
      | true =>
        have := h c (List.mem_cons_self _ _) hmesh
        cases c.material <;> simp [this]
    rw [traverse]
    simp only [hc]
    exact traverse_applyMaterial_keeps_disposed nm rest st
      (fun d hd => h d (List.mem_cons_of_mem _ hd))

theorem traverse_applyMulticolor_keeps_disposed :
    ∀ (nodes : List Object3D) (st : ViewerState × Nat),
      (∀ c ∈ nodes, c.isMesh = true → mapHas st.1.originalMaterials c.uuid = true) →
      (traverse applyMulticolorCallback nodes st).2.1.disposedMaterials = st.1.disposedMaterials ∧
      (traverse applyMulticolorCallback nodes st).2.1.originalMaterials = st.1.originalMaterials
  | [], _, _ => ⟨rfl, rfl⟩
  | c :: rest, st, h => by
    have hc : (applyMulticolorCallback c st).2.1.disposedMaterials = st.1.disposedMaterials ∧
        (applyMulticolorCallback c st).2.1.originalMaterials = st.1.originalMaterials := by
      simp only [applyMulticolorCallback]
      cases hmesh : c.isMesh with
      | false => exact ⟨rfl, rfl⟩
      | true =>
        have := h c (List.mem_cons_self _ _) hmesh
        cases c.material <;> simp [this]
    rw [traverse]
    simp only
    have ih := traverse_applyMulticolor_keeps_disposed rest (applyMulticolorCallback c st).2
      (fun d hd hm => by rw [hc.2]; exact h d (List.mem_cons_of_mem _ hd) hm)
    exact ⟨ih.1.trans hc.1, ih.2.trans hc.2⟩

/-- C5, as the code has it: when every mesh part of the current model has an
entry in the snapshot, `applyMaterial` and `applyMulticolor` call `dispose()`
on no material at all, whatever the parts hold; in particular the material of
an earlier recolor is not disposed when the part is recolored again. -/
theorem recolor_disposes_nothing_when_snapshotted (s : ViewerState) (model : Model) (color : Nat)
    (hmodel : s.currentModel = some model)
    (hsnap : ∀ c ∈ model.nodes, c.isMesh = true → mapHas s.originalMaterials c.uuid = true) :
    (applyMaterial color s).disposedMaterials = s.disposedMaterials ∧
      (applyMulticolor s).disposedMaterials = s.disposedMaterials := by
  constructor
  · simp only [applyMaterial, hmodel]
    rw [modelTraverse_snd]
    exact traverse_applyMaterial_keeps_disposed _ model.nodes _ hsnap
  · simp only [applyMulticolor, hmodel]
    rw [modelTraverse_snd]
    exact (traverse_applyMulticolor_keeps_disposed model.nodes (s, 0) hsnap).1

theorem recolor_disposes_nothing_when_snapshotted_witness :
    recoloredState.currentModel = some recoloredModel ∧
      (meshParts recoloredModel).map Object3D.materialIds = [[.created 2], [.created 2]] ∧
      (applyMaterial 0x00ff00 recoloredState).disposedMaterials = [] ∧
      (applyMulticolor recoloredState).disposedMaterials = [] :=
  have h := recolor_disposes_nothing_when_snapshotted recoloredState recoloredModel 0x00ff00
    (by decide) (by decide)
  ⟨by decide, by decide, h.1.trans (by decide), h.2.trans (by decide)⟩

/-! ## Multicolour mode (C8) -/

theorem applyMulticolorCallback_mesh (c : Object3D) (s : ViewerState) (idx : Nat)
    (h : c.isMesh = true) :
    (applyMulticolorCallback c (s, idx)).1
        = { c with material := some (.single
              { id := .created s.nextRef, color := colors.getD (idx % 8) 0 }) } ∧
      (applyMulticolorCallback c (s, idx)).2.1.nextRef = s.nextRef + 1 ∧
      (applyMulticolorCallback c (s, idx)).2.2 = idx + 1 := by
  refine ⟨?_, ?_, ?_⟩
  · simp [applyMulticolorCallback, h, colors]
  · simp only [applyMulticolorCallback, h, if_true]
    cases c.material with
    | none => rfl
    | some slot =>
      simp only
      split_ifs
      · cases slot <;> rfl
      · rfl
  · simp [applyMulticolorCallback, h]

theorem applyMulticolorCallback_other (c : Object3D) (st : ViewerState × Nat)
    (h : c.isMesh = false) : applyMulticolorCallback c st = (c, st) := by
  simp [applyMulticolorCallback, h]

theorem traverse_multicolor_meshes :
    ∀ (nodes : List Object3D) (s : ViewerState) (idx i : Nat),
      ((traverse applyMulticolorCallback nodes (s, idx)).1.filter fun c => c.isMesh)[i]?
        = ((nodes.filter fun c => c.isMesh)[i]?).map fun (c : Object3D) =>
            { c with material := some (.single
                { id := .created (s.nextRef + i), color := colors.getD ((idx + i) % 8) 0 }) }
  | [], _, _, _ => by simp [traverse]
  | c :: rest, s, idx, i => by
    cases h : c.isMesh with
    | false =>
      rw [traverse, applyMulticolorCallback_other c _ h]
      simp only [List.filter_cons, h, Bool.false_eq_true, if_false]
      exact traverse_multicolor_meshes rest s idx i
    | true =>
      obtain ⟨h1, h2, h3⟩ := applyMulticolorCallback_mesh c s idx h
      rcases hcb : applyMulticolorCallback c (s, idx) with ⟨c', s', idx'⟩
      rw [hcb] at h1 h2 h3
      simp only at h1 h2 h3
      subst h1 h3
      rw [traverse, hcb]
      simp only [List.filter_cons, h, if_true]
      cases i with
      | zero => simp [h]
      | succ j =>
        simp only [List.getElem?_cons_succ]
        have ih := traverse_multicolor_meshes rest s' (idx + 1) j
        rw [h2] at ih
        have e1 : s.nextRef + 1 + j = s.nextRef + (j + 1) := by omega
        have e2 : idx + 1 + j = idx + (j + 1) := by omega
        rw [e1, e2] at ih
        exact ih

theorem traverse_multicolor_others :
    ∀ (nodes : List Object3D) (st : ViewerState × Nat),
      ((traverse applyMulticolorCallback nodes st).1.map fun c => (c.uuid, c.isMesh, c.geometry))
          = (nodes.map fun c => (c.uuid, c.isMesh, c.geometry)) ∧
        ((traverse applyMulticolorCallback nodes st).1.filter fun c => !c.isMesh)
          = nodes.filter fun c => !c.isMesh
  | [], _ => by simp [traverse]
  | c :: rest, st => by
    have ih := traverse_multicolor_others rest (applyMulticolorCallback c st).2
    cases h : c.isMesh with
    | false =>
      rw [traverse, applyMulticolorCallback_other c _ h] at *
      simp [List.filter_cons, h, ih.1, ih.2]
    | true =>
      obtain ⟨s, idx⟩ := st
      obtain ⟨h1, -, -⟩ := applyMulticolorCallback_mesh c s idx h
      rw [traverse]
      simp [List.filter_cons, h, h1, ih.1, ih.2]

/-- C8: `applyMulticolor` gives the mesh part number `i` in traversal order
(counting mesh parts only, from 0) a material created for it, of colour
`colors[i % 8]` with `colors` the fixed list of eight; it leaves the order of
the nodes and the nodes that are not meshes as they were, and no two mesh
parts hold the same material object. -/
theorem applyMulticolor_palette (s : ViewerState) (model : Model)
    (h : s.currentModel = some model) :
    ∃ model', (applyMulticolor s).currentModel = some model' ∧
      (∀ i, (meshParts model')[i]?
        = ((meshParts model)[i]?).map fun (c : Object3D) =>
            { c with material := some (.single (multicolorMaterial s.nextRef i)) }) ∧
      colors = [0x4285f4, 0x34a853, 0xfbbc05, 0xea4335, 0x9c27b0, 0xff6d00, 0x00bcd4, 0xe91e63] ∧
      (model'.nodes.map fun c => (c.uuid, c.isMesh, c.geometry))
        = (model.nodes.map fun c => (c.uuid, c.isMesh, c.geometry)) ∧
      (model'.nodes.filter fun c => !c.isMesh) = (model.nodes.filter fun c => !c.isMesh) ∧
      (∀ (i j : Nat) (c d : Object3D), (meshParts model')[i]? = some c → (meshParts model')[j]? = some d → i ≠ j →
        ∀ r ∈ c.materialIds, r ∉ d.materialIds) := by
  have hmesh : ∀ i, (meshParts (model.traverse applyMulticolorCallback (s, 0)).1)[i]?
        = ((meshParts model)[i]?).map fun (c : Object3D) =>
            { c with material := some (.single (multicolorMaterial s.nextRef i)) } := by
    intro i
    have := traverse_multicolor_meshes model.nodes s 0 i
    simpa [meshParts, modelTraverse_nodes, multicolorMaterial] using this
  refine ⟨(model.traverse applyMulticolorCallback (s, 0)).1, ?_, hmesh, rfl, ?_, ?_, ?_⟩
  · simp [applyMulticolor, h]
  · rw [modelTraverse_nodes]
    exact (traverse_multicolor_others model.nodes (s, 0)).1
  · rw [modelTraverse_nodes]
    exact (traverse_multicolor_others model.nodes (s, 0)).2
  · intro i j c d hc hd hij r hr hr'
    rw [hmesh i] at hc
    rw [hmesh j] at hd
    simp only [Option.map_eq_some'] at hc hd
    obtain ⟨c0, -, rfl⟩ := hc
    obtain ⟨d0, -, rfl⟩ := hd
    simp only [Object3D.materialIds, MaterialSlot.ids, multicolorMaterial, List.mem_singleton] at hr hr'
    rw [hr] at hr'
    injection hr' with hr'
    omega

theorem applyMulticolor_palette_witness :
    ∃ model', (applyMulticolor loadedState).currentModel = some model' ∧
      ∀ i, (meshParts model')[i]?
        = ((meshParts sampleModel)[i]?).map fun (c : Object3D) =>
            { c with material := some (.single (multicolorMaterial loadedState.nextRef i)) } :=
  have h := applyMulticolor_palette loadedState sampleModel rfl
  h.elim fun m hm => ⟨m, hm.1, hm.2.1⟩
/-! ## Replacing the model (C6) -/

theorem clearCallback_spec (c : Object3D) (st : ViewerState) :
    (∀ g ∈ st.disposedGeometries, g ∈ (clearCallback c st).2.disposedGeometries) ∧
    (∀ r ∈ st.disposedMaterials, r ∈ (clearCallback c st).2.disposedMaterials) ∧
    (∀ g, c.geometry = some g → g ∈ (clearCallback c st).2.disposedGeometries) ∧
    (∀ r ∈ c.materialIds, r ∈ (clearCallback c st).2.disposedMaterials) := by
  rcases c with ⟨u, im, g, m, cs, rs⟩
  rcases g with _ | g <;> rcases m with _ | (m | ms) <;>
    simp [clearCallback, Object3D.materialIds, disposeSlot, MaterialSlot.ids] <;> tauto

theorem traverse_clear_spec :
    ∀ (nodes : List Object3D) (st : ViewerState),
      (∀ g ∈ st.disposedGeometries, g ∈ (traverse clearCallback nodes st).2.disposedGeometries) ∧
      (∀ r ∈ st.disposedMaterials, r ∈ (traverse clearCallback nodes st).2.disposedMaterials) ∧
      ∀ c ∈ nodes,
        (∀ g, c.geometry = some g → g ∈ (traverse clearCallback nodes st).2.disposedGeometries) ∧
        (∀ r ∈ c.materialIds, r ∈ (traverse clearCallback nodes st).2.disposedMaterials)
  | [], _ => ⟨fun _ h => h, fun _ h => h, fun _ h => by cases h⟩
  | d :: rest, st => by
    obtain ⟨a1, a2, a3, a4⟩ := clearCallback_spec d st
    obtain ⟨b1, b2, b3⟩ := traverse_clear_spec rest (clearCallback d st).2
    rw [traverse]
    refine ⟨fun g hg => b1 g (a1 g hg), fun r hr => b2 r (a2 r hr), ?_⟩
    intro c hc
    rcases List.mem_cons.1 hc with rfl | hc'
    · exact ⟨fun g hg => b1 g (a3 g hg), fun r hr => b2 r (a4 r hr)⟩
    · exact b3 c hc'

theorem clearCurrentModel_released (s : ViewerState) (first : Model)
    (h : s.currentModel = some first) : Released first (clearCurrentModel s) := by
  simp only [clearCurrentModel, h, Released]
  rw [modelTraverse_snd]
  exact (traverse_clear_spec first.nodes _).2.2

theorem Released.of_eq {first : Model} {a b : ViewerState} (h : Released first a)
    (hg : b.disposedGeometries = a.disposedGeometries)
    (hm : b.disposedMaterials = a.disposedMaterials) : Released first b := by
  intro c hc
  rw [hg, hm]
  exact h c hc

theorem install_released (env : Env) (object : Model) (s : ViewerState) (first : Model)
    (h : s.currentModel = some first) : Released first (install env object s).1 := by
  refine (clearCurrentModel_released s first h).of_eq ?_ ?_ <;>
    (simp only [install, centerModel, sceneAdd]; cases env.activeCamera <;> simp)

theorem gltfOnLoad_released (env : Env) (scene : Model) (t : ViewerState) (first : Model)
    (h : t.currentModel = some first) : Released first (gltfOnLoad env scene t) := by
  refine (clearCurrentModel_released t first h).of_eq ?_ ?_ <;>
    (simp only [gltfOnLoad, centerModel, sceneAdd]
     cases env.activeCamera <;> simp [hideLoader, showError])

theorem fbxOnLoad_released (env : Env) (object : Model) (t : ViewerState) (first : Model)
    (h : t.currentModel = some first) : Released first (fbxOnLoad env object t) := by
  refine (clearCurrentModel_released t first h).of_eq ?_ ?_ <;>
    (simp only [fbxOnLoad, centerModel, sceneAdd]
     cases env.activeCamera <;> simp [hideLoader, showError])

theorem load3MF_released (env : Env) (arrayBuffer : JSValue) (object : Model) (s : ViewerState)
    (first : Model) (hp : env.threeMFParse arrayBuffer = .ok object)
    (h : s.currentModel = some first) : Released first (load3MF env arrayBuffer s) := by
  have h' : (enter (.load3MF arrayBuffer) s).currentModel = some first := h
  refine (clearCurrentModel_released _ first h').of_eq ?_ ?_ <;>
    (simp only [load3MF, hp, centerModel, sceneAdd]
     cases env.activeCamera <;> simp [hideLoader, showError])

theorem finish_disposed (r : ViewerState × Option String) :
    (finish r).1.disposedGeometries = r.1.disposedGeometries ∧
      (finish r).1.disposedMaterials = r.1.disposedMaterials := by
  obtain ⟨s, _ | m⟩ := r <;> exact ⟨rfl, rfl⟩

theorem loadSTL_released (env : Env) (arrayBuffer : JSValue) (g : Nat) (s : ViewerState)
    (first : Model) (hp : env.stlParse arrayBuffer = .ok g) (h : s.currentModel = some first) :
    Released first (loadSTL env arrayBuffer s).1 := by
  simp only [loadSTL, hp]
  exact install_released env _ _ first h

theorem loadOBJ_released (env : Env) (text : String) (o : Model) (s : ViewerState)
    (first : Model) (hp : env.objParse text = .ok o) (h : s.currentModel = some first) :
    Released first (loadOBJ env text s).1 := by
  simp only [loadOBJ, hp]
  refine install_released env _ _ first ?_
  rw [traverse_obj_currentModel]
  exact h

/-- C6, amended: whatever was done to the first model before, a load of a
second file whose bytes its loader parses calls `dispose()` on every geometry
of the first model's nodes and on every material those nodes hold at that
moment (for GLTF/GLB and FBX when the load callback fires, for the model that
is current by then). -/
theorem loadModelFromData_releases_previous (env : Env) (s : ViewerState) (name : String)
    (bytes : List Nat) (first : Model) (hfirst : s.currentModel = some first) :
    let buffer := JSValue.arrayBuffer bytes
    let lower := toLowerCase name
    let r := loadModelFromData env (.string name) buffer s
    (endsWith lower ".stl" = true → (∃ g, env.stlParse buffer = .ok g) → Released first r.1) ∧
    (endsWith lower ".obj" = true → (∃ o, env.objParse (env.utf8 bytes) = .ok o) →
      Released first r.1) ∧
    (endsWith lower ".gltf" = true ∨ endsWith lower ".glb" = true →
      (∃ o, env.gltfParse buffer = .onLoad o) →
      ∃ p, r.2 = some p ∧ ∀ t prev, t.currentModel = some prev → Released prev (fire env p t)) ∧
    (endsWith lower ".3mf" = true → (∃ o, env.threeMFParse buffer = .ok o) → Released first r.1) ∧
    (endsWith lower ".fbx" = true → (∃ o, env.fbxLoad buffer = .onLoad o) →
      ∃ p, r.2 = some p ∧ ∀ t prev, t.currentModel = some prev → Released prev (fire env p t)) := by
  have hfirst' : ({ showLoader s with
      lastFileData := some (JSValue.string name, JSValue.arrayBuffer bytes) } : ViewerState).currentModel
      = some first := hfirst
  refine ⟨?_, ?_, ?_, ?_, ?_⟩
  · rintro h ⟨g, hp⟩
    simp only [loadModelFromData, h, if_true]
    exact Released.of_eq (loadSTL_released env _ g _ first hp hfirst') (finish_disposed _).1
      (finish_disposed _).2
  · rintro h ⟨o, hp⟩
    have h1 := endsWith_other _ _ ".stl" h (by decide) (by decide)
    simp only [loadModelFromData, h, h1, if_true, decode]
    exact Released.of_eq (loadOBJ_released env _ o _ first hp hfirst') (finish_disposed _).1
      (finish_disposed _).2
  · rintro h ⟨o, hp⟩
    have h1 : endsWith (toLowerCase name) ".stl" = false := by
      rcases h with h | h <;> exact endsWith_other _ _ ".stl" h (by decide) (by decide)
    have h2 : endsWith (toLowerCase name) ".obj" = false := by
      rcases h with h | h <;> exact endsWith_other _ _ ".obj" h (by decide) (by decide)
    have h3 : (endsWith (toLowerCase name) ".gltf" || endsWith (toLowerCase name) ".glb") = true := by
      rcases h with h | h <;> simp [h]
    simp only [loadModelFromData, h1, h2, h3, if_true, loadGLTF, hp]
    exact ⟨_, rfl, fun t prev ht => gltfOnLoad_released env o t prev ht⟩
  · rintro h ⟨o, hp⟩
    have h1 := endsWith_other _ _ ".stl" h (by decide) (by decide)
    have h2 := endsWith_other _ _ ".obj" h (by decide) (by decide)
    have h3 := endsWith_other _ _ ".gltf" h (by decide) (by decide)
    have h4 := endsWith_other _ _ ".glb" h (by decide) (by decide)
    simp only [loadModelFromData, h, h1, h2, h3, h4, if_true]
    exact Released.of_eq (load3MF_released env _ o _ first hp hfirst') rfl rfl
  · rintro h ⟨o, hp⟩
    have h1 := endsWith_other _ _ ".stl" h (by decide) (by decide)
    have h2 := endsWith_other _ _ ".obj" h (by decide) (by decide)
    have h3 := endsWith_other _ _ ".gltf" h (by decide) (by decide)
    have h4 := endsWith_other _ _ ".glb" h (by decide) (by decide)
    have h5 := endsWith_other _ _ ".3mf" h (by decide) (by decide)
    simp only [loadModelFromData, h, h1, h2, h3, h4, h5, if_true, loadFBX, hp]
    exact ⟨_, rfl, fun t prev ht => fbxOnLoad_released env o t prev ht⟩

theorem loadModelFromData_releases_previous_witness :
    Released recoloredModel
      (loadModelFromData boundEnv (.string "box.stl") (.arrayBuffer [0]) recoloredState).1 :=
  (loadModelFromData_releases_previous boundEnv recoloredState "box.stl" [0] recoloredModel
    (by decide)).1 (by decide) ⟨7, rfl⟩

/-- C6, as stated, fails: with `sampleModel` loaded, snapshotted and recolored
once, a successful load of `box.stl` disposes only the recolor material the two
meshes hold (`created 2`); the load-time materials `parsed 10`, `parsed 11` and
the snapshot copies `created 0`, `created 1` are never disposed. -/
theorem second_load_leaves_materials_undisposed :
    recoloredState.currentModel = some recoloredModel ∧
      (loadModelFromData boundEnv (.string "box.stl") (.arrayBuffer [0])
        recoloredState).1.errorOverlayShown = false ∧
      (meshParts sampleModel).map Object3D.materialIds = [[.parsed 10], [.parsed 11]] ∧
      loadedState.originalMaterials.map (fun e => e.2.ids) = [[.created 0], [.created 1]] ∧
      (loadModelFromData boundEnv (.string "box.stl") (.arrayBuffer [0])
        recoloredState).1.disposedMaterials = [.created 2, .created 2] ∧
      Ref.parsed 10 ∉ (loadModelFromData boundEnv (.string "box.stl") (.arrayBuffer [0])
        recoloredState).1.disposedMaterials ∧
      Ref.created 0 ∉ (loadModelFromData boundEnv (.string "box.stl") (.arrayBuffer [0])
        recoloredState).1.disposedMaterials := by
  decide

/-! ## Loading a file in a page that defines `activeCamera` -/

theorem mem_keys_mapSet (om : List (Ref × MaterialSlot)) (k u : Ref) (v : MaterialSlot) :
    u ∈ keys (mapSet om k v) ↔ u = k ∨ u ∈ keys om := by
  induction om with
  | nil => simp [mapSet, keys]
  | cons e rest ih =>
    simp only [mapSet]
    by_cases he : e.1 = k
    · simp only [he, if_true, keys, List.map_cons, List.mem_cons]
      rw [← he]
      tauto
    · simp only [he, if_false]
      simp only [keys, List.map_cons, List.mem_cons] at ih ⊢
      rw [ih]
      tauto

theorem traverse_save_keys :
    ∀ (nodes : List Object3D) (st : ViewerState) (u : Ref),
      u ∈ keys (traverse saveCallback nodes st).2.originalMaterials ↔
        u ∈ keys st.originalMaterials ∨
          ∃ c ∈ nodes, (c.isMesh && c.material.isSome) = true ∧ c.uuid = u
  | [], _, _ => by simp [traverse]
  | d :: rest, st, u => by
    rw [traverse]
    simp only
    rw [traverse_save_keys rest (saveCallback d st).2 u]
    have hd : u ∈ keys (saveCallback d st).2.originalMaterials ↔
        u ∈ keys st.originalMaterials ∨ ((d.isMesh && d.material.isSome) = true ∧ d.uuid = u) := by
      simp only [saveCallback]
      cases d.isMesh with
      | false => simp
      | true =>
        cases d.material with
        | none => simp
        | some slot =>
          simp only [if_true, mem_keys_mapSet]
          simp only [Bool.true_and, Option.isSome_some, true_and]
          constructor
          · rintro (h | h)
            · exact Or.inr h.symm
            · exact Or.inl h
          · rintro (h | h)
            · exact Or.inr h
            · exact Or.inl h.symm
    rw [hd]
    simp only [List.mem_cons, exists_eq_or_imp]
    tauto

theorem saveOriginalMaterials_keys (model : Model) (s : ViewerState) (u : Ref) :
    u ∈ keys (saveOriginalMaterials model s).originalMaterials ↔
      ∃ c ∈ meshPartsWithMaterial model, c.uuid = u := by
  simp only [saveOriginalMaterials, modelTraverse_snd]
  rw [traverse_save_keys]
  simp [keys, meshPartsWithMaterial, and_assoc]

theorem install_loaded (env : Env) (object : Model) (s : ViewerState)
    (hcam : env.activeCamera = none) :
    (install env object s).2 = none ∧
      (hideLoader (install env object s).1).errorOverlayShown = s.errorOverlayShown ∧
      (s.errorOverlayShown = false → Loaded (hideLoader (install env object s).1)) := by
  have hr : install env object s
      = (saveOriginalMaterials object
          { sceneAdd object { clearCurrentModel s with currentModel := some object } with
            framed := some object.root.uuid }, none) := by
    simp [install, centerModel, hcam]
  rw [hr]
  refine ⟨rfl, by simp [hideLoader, sceneAdd], ?_⟩
  intro herr
  refine ⟨object, by simp [hideLoader, sceneAdd], by simp [hideLoader, sceneAdd],
    by simp [hideLoader], ?_, rfl, by simp [hideLoader, sceneAdd, herr]⟩
  intro u
  exact saveOriginalMaterials_keys object _ u

theorem traverse_shadow_root (object : Model) (s : ViewerState) :
    (object.traverse shadowCallback s).1.root.uuid = object.root.uuid := by
  simp only [Model.traverse, shadowCallback]
  cases object.root.isMesh <;> rfl

theorem finish_install_loaded (env : Env) (object : Model) (s : ViewerState)
    (hcam : env.activeCamera = none) (herr : s.errorOverlayShown = false) :
    (finish (install env object s)).2 = none ∧ Loaded (finish (install env object s)).1 := by
  obtain ⟨h1, -, h3⟩ := install_loaded env object s hcam
  rcases hi : install env object s with ⟨s', _ | m⟩
  · rw [hi] at h3
    exact ⟨rfl, h3 herr⟩
  · rw [hi] at h1
    cases h1

theorem loaded_after_save (model : Model) (s : ViewerState)
    (hcur : s.currentModel = some model) (hscene : model.root.uuid ∈ s.scene)
    (hframed : s.framed = some model.root.uuid) (herr : s.errorOverlayShown = false) :
    Loaded (hideLoader (saveOriginalMaterials model s)) :=
  ⟨model, by simpa [hideLoader] using hcur, by simpa [hideLoader] using hscene,
    by simpa [hideLoader] using hframed, fun u => saveOriginalMaterials_keys model s u, rfl,
    by simpa [hideLoader] using herr⟩

theorem gltfOnLoad_loaded (env : Env) (scene : Model) (t : ViewerState)
    (hcam : env.activeCamera = none) (herr : t.errorOverlayShown = false) :
    Loaded (gltfOnLoad env scene t) := by
  simp only [gltfOnLoad, centerModel, hcam]
  apply loaded_after_save <;> simp [sceneAdd, herr]

theorem fbxOnLoad_loaded (env : Env) (object : Model) (t : ViewerState)
    (hcam : env.activeCamera = none) (herr : t.errorOverlayShown = false) :
    Loaded (fbxOnLoad env object t) := by
  simp only [fbxOnLoad, centerModel, hcam]
  apply loaded_after_save <;> simp [sceneAdd, herr, traverse_shadow_root]

theorem load3MF_loaded (env : Env) (arrayBuffer : JSValue) (object : Model) (s : ViewerState)
    (hcam : env.activeCamera = none) (hp : env.threeMFParse arrayBuffer = .ok object)
    (herr : s.errorOverlayShown = false) :
    Loaded (hideLoader (load3MF env arrayBuffer s)) := by
  simp only [load3MF, hp, centerModel, hcam]
  apply loaded_after_save <;> simp [sceneAdd, herr, enter, traverse_shadow_root]

/-- The loads complete in a page where the identifier `activeCamera` resolves:
for each supported suffix and bytes the loader parses, `loadModelFromData`
(with the load callback, for GLTF/GLB and FBX, firing next) ends in a state
that is `Loaded`. -/
theorem loadModelFromData_loaded_when_global_bound (env : Env) (s : ViewerState) (name : String)
    (bytes : List Nat) (hcam : env.activeCamera = none) :
    let buffer := JSValue.arrayBuffer bytes
    let lower := toLowerCase name
    let r := loadModelFromData env (.string name) buffer s
    (endsWith lower ".stl" = true → (∃ g, env.stlParse buffer = .ok g) →
      r.2 = none ∧ Loaded r.1) ∧
    (endsWith lower ".obj" = true → (∃ o, env.objParse (env.utf8 bytes) = .ok o) →
      r.2 = none ∧ Loaded r.1) ∧
    (endsWith lower ".gltf" = true ∨ endsWith lower ".glb" = true →
      (∃ o, env.gltfParse buffer = .onLoad o) → ∃ p, r.2 = some p ∧ Loaded (fire env p r.1)) ∧
    (endsWith lower ".3mf" = true → (∃ o, env.threeMFParse buffer = .ok o) →
      r.2 = none ∧ Loaded r.1) ∧
    (endsWith lower ".fbx" = true → (∃ o, env.fbxLoad buffer = .onLoad o) →
      ∃ p, r.2 = some p ∧ Loaded (fire env p r.1)) := by
  refine ⟨?_, ?_, ?_, ?_, ?_⟩
  · rintro h ⟨g, hp⟩
    simp only [loadModelFromData, h, if_true, loadSTL, hp]
    exact finish_install_loaded env _ _ hcam rfl
  · rintro h ⟨o, hp⟩
    have h1 := endsWith_other _ _ ".stl" h (by decide) (by decide)
    simp only [loadModelFromData, h, h1, if_true, decode, loadOBJ, hp]
    refine finish_install_loaded env _ _ hcam ?_
    rw [traverse_obj_errorOverlayShown]
    rfl
  · rintro h ⟨o, hp⟩
    have h1 : endsWith (toLowerCase name) ".stl" = false := by
      rcases h with h | h <;> exact endsWith_other _ _ ".stl" h (by decide) (by decide)
    have h2 : endsWith (toLowerCase name) ".obj" = false := by
      rcases h with h | h <;> exact endsWith_other _ _ ".obj" h (by decide) (by decide)
    have h3 : (endsWith (toLowerCase name) ".gltf" || endsWith (toLowerCase name) ".glb") = true := by
      rcases h with h | h <;> simp [h]
    simp only [loadModelFromData, h1, h2, h3, if_true, loadGLTF, hp]
    exact ⟨_, rfl, gltfOnLoad_loaded env o _ hcam rfl⟩
  · rintro h ⟨o, hp⟩
    have h1 := endsWith_other _ _ ".stl" h (by decide) (by decide)
    have h2 := endsWith_other _ _ ".obj" h (by decide) (by decide)
    have h3 := endsWith_other _ _ ".gltf" h (by decide) (by decide)
    have h4 := endsWith_other _ _ ".glb" h (by decide) (by decide)
    simp only [loadModelFromData, h, h1, h2, h3, h4, if_true]
    exact ⟨rfl, load3MF_loaded env _ o _ hcam hp rfl⟩
  · rintro h ⟨o, hp⟩
    have h1 := endsWith_other _ _ ".stl" h (by decide) (by decide)
    have h2 := endsWith_other _ _ ".obj" h (by decide) (by decide)
    have h3 := endsWith_other _ _ ".gltf" h (by decide) (by decide)
    have h4 := endsWith_other _ _ ".glb" h (by decide) (by decide)
    have h5 := endsWith_other _ _ ".3mf" h (by decide) (by decide)
    simp only [loadModelFromData, h, h1, h2, h3, h4, h5, if_true, loadFBX, hp]
    exact ⟨_, rfl, fbxOnLoad_loaded env o _ hcam rfl⟩

end Viewer
